import Mathlib

/-! Power service controller.

A shallow embedding of `applications/services/power/power_service/power.c`.

The controller is a single-threaded event loop.  Every handler of the C file is
a Lean function from the controller record (and the values the handler reads
from its collaborators) to the new controller record and the ordered list of
calls it makes on its collaborators.

Conventions.
* `uint8_t` / `uint32_t` / `size_t` values are `Nat`; the two post-decrements of
  the file are written with their wrap-around made explicit.
* `float` readings are rationals: every finite float is a rational and the two
  thresholds of the file (`4.0f`, `4.5f`) are exactly representable, so each
  comparison of the file has the same outcome on the rational.
* Values returned by collaborators (hardware sampler, prompt, OTG enable
  primitive) are inputs of the handler that reads them.
-/

namespace PowerSrv

/-! ## Constants -/

/-- Source: `#define POWER_OFF_TIMEOUT_S (90U)` -/
def POWER_OFF_TIMEOUT_S : Nat := 90

/-- Source: `#define POWER_VBUS_LOW_THRESHOLD (4.0f)` -/
def POWER_VBUS_LOW_THRESHOLD : ℚ := 4

/-- Source: `#define POWER_HEALTH_LOW_THRESHOLD (70U)` -/
def POWER_HEALTH_LOW_THRESHOLD : Nat := 70

/-- The literal `4.5f` that guards both OTG enable sites. -/
def OTG_VBUS_THRESHOLD : ℚ := 9 / 2

/-- Modelled from the spec: the width of the countdown field
`power_off_timeout`, declared in `power_i.h` (not under src/); the spec calls
its decrement unsigned, the firmware declares it `uint8_t`.  This is the
modulus of that type. -/
def UINT8_MOD : Nat := 256

/-- Modelled from the spec: `SIZE_MAX` of the 32-bit target, the value the
`size_t` counter `retries` wraps to (the platform headers are not under
src/). -/
def SIZE_MAX : Nat := 2 ^ 32 - 1

/-! ## Data model -/

/-- Modelled from the spec: the enumeration `PowerState` of `power_i.h` (not
under src/), the spec's ChargeState; the three values are the ones `power.c`
assigns and tests. -/
inductive PowerState where
  | NotCharging
  | Charging
  | Charged
deriving DecidableEq, Repr

/-- Modelled from the spec: the enumeration `PowerEventType` of `power.h` (not
under src/), the tags of the spec's PowerEvent. -/
inductive PowerEventType where
  | StopCharging
  | StartCharging
  | FullyCharged
  | BatteryLevelChanged
deriving DecidableEq, Repr

/-- Modelled from the spec: the record `PowerEvent` of `power.h` (not under
src/) with the two members `power.c` writes, the type tag and the
`data.battery_level` payload.  The controller keeps one such record and
publishes it by reference, so the payload of an earlier `BatteryLevelChanged`
stays in place when only the tag changes. -/
structure PowerEvent where
  type : PowerEventType
  battery_level : Nat
deriving DecidableEq, Repr

/-- Modelled from the spec: the enumeration `PowerBootMode` of `power.h` (not
under src/), the spec's BootMode; `Other` stands for any value outside the
three enumerators (the `else` branch of `power_handle_reboot`). -/
inductive PowerBootMode where
  | Normal
  | Dfu
  | UpdateStart
  | Other (raw : Nat)
deriving DecidableEq, Repr

/-- Modelled from the spec: the two `FuriHalRtcBootMode` values (HAL header,
not under src/) that `power_handle_reboot` writes. -/
inductive FuriHalRtcBootMode where
  | Dfu
  | PreUpdate
deriving DecidableEq, Repr

/-- Modelled from the spec: the enumeration `PowerOffResponse` of the
power-off view (not under src/), the spec's PromptResponse. -/
inductive PowerOffResponse where
  | Default
  | Ok
  | Cancel
  | Hide
deriving DecidableEq, Repr

/-- Modelled from the spec: the record `PowerInfo` of `power.h` (not under
src/), the spec's PowerSnapshot; the sixteen members are the ones
`power_update_info` fills. -/
structure PowerInfo where
  gauge_is_ok : Bool
  is_charging : Bool
  is_shutdown_requested : Bool
  is_otg_enabled : Bool
  current_charger : ℚ
  current_gauge : ℚ
  voltage_battery_charge_limit : ℚ
  voltage_charger : ℚ
  voltage_gauge : ℚ
  voltage_vbus : ℚ
  capacity_remaining : Nat
  capacity_full : Nat
  temperature_charger : ℚ
  temperature_gauge : ℚ
  charge : Nat
  health : Nat
deriving DecidableEq

/-- Modelled from the spec: the record `struct Power` of `power_i.h` (not under
src/), reduced to the data members `power.c` reads and writes (the handles to
views, queue, pubsub and event loop carry no state of their own here). -/
structure Power where
  event : PowerEvent
  state : PowerState
  info : PowerInfo
  battery_low : Bool
  show_battery_low_warning : Bool
  is_otg_requested : Bool
  battery_level : Nat
  power_off_timeout : Nat
deriving DecidableEq

/-- Views handed to `view_holder_set_view`. -/
inductive View where
  | power_off
  | power_unplug_usb
deriving DecidableEq, Repr

/-- Notification sequences played by `power_check_charging_state`. -/
inductive Sequence where
  | sequence_charged
  | sequence_charging
  | sequence_not_charging
deriving DecidableEq, Repr

/-- The four log lines of the file. -/
inductive LogLine where
  | otg_enable_failed
  | otg_postponed
  | otg_fault
  | otg_enabling
deriving DecidableEq, Repr

/-- One call made by the controller on a collaborator, or one store through an
output pointer carried by a message.  `power_off` is the shutdown request
`power_off(power)` of the service API, which the low-battery check calls. -/
inductive Call where
  | view_holder_send_to_front
  | view_holder_set_view (view : Option View)
  | power_off_get_response
  | power_off_set_time_left (time_left : Nat)
  | power_off
  | notification_internal_message (seq : Sequence)
  | furi_pubsub_publish (event : PowerEvent)
  | view_port_update
  | furi_hal_power_disable_otg
  | furi_hal_power_enable_otg
  | furi_log (line : LogLine)
  | furi_hal_power_off
  | furi_delay_ms (ms : Nat)
  | furi_halt
  | update_operation_disarm
  | furi_hal_rtc_set_boot_mode (mode : FuriHalRtcBootMode)
  | furi_crash
  | furi_hal_power_reset
  | store_power_info (info : PowerInfo)
  | store_bool (value : Bool)
  | api_lock_unlock (lock : Nat)
deriving DecidableEq

/-- Modelled from the spec: how a handler ends.  It returns to the event loop,
or it ends in one of the calls that do not return; `furi_halt`,
`furi_hal_power_reset` and `furi_crash` are not under src/, the spec has the
halt "irrecoverable, not a returning call", the reset a device reset and the
crash a process abort. -/
inductive Exit where
  | returned
  | halted
  | reset
  | crashed
deriving DecidableEq, Repr

/-- Modelled from the spec: the enumeration `PowerMessageType` of `power_i.h`
(not under src/), the tags of the spec's Command; `Unknown` stands for any tag
outside the six enumerators (the `default:` branch of the dispatch). -/
inductive PowerMessageType where
  | Shutdown
  | Reboot
  | GetInfo
  | IsBatteryHealthy
  | ShowBatteryLowWarning
  | SwitchOTG
  | Unknown (raw : Nat)
deriving DecidableEq, Repr

/-- Modelled from the spec: the record `PowerMessage` of `power_i.h` (not under
src/).  `bool_param` is the value behind the pointer for the two setter
messages; `lock` is the optional completion handle; the output slots of
`GetInfo` and `IsBatteryHealthy` appear as the stores of the handler. -/
structure PowerMessage where
  type : PowerMessageType
  boot_mode : PowerBootMode
  bool_param : Bool
  lock : Option Nat
deriving DecidableEq, Repr

/-- Everything one tick reads from its collaborators: the sixteen sampler
readings of `power_update_info`, the prompt response, the two readings of
`power_check_charging_state` (its own `furi_hal_power_is_charging()` call and
`furi_hal_power_is_charging_done()`), and `furi_hal_power_check_otg_fault()`. -/
structure TickInput where
  info : PowerInfo
  response : PowerOffResponse
  is_charging : Bool
  is_charging_done : Bool
  otg_fault : Bool
deriving DecidableEq

/-- Result of a message handler. -/
structure Outcome where
  power : Power
  calls : List Call
  exit : Exit

/-! ## Tick handlers -/

/-- Function `power_update_info`: returns `need_refresh` and stores the new snapshot. -/
def power_update_info (power : Power) (info : PowerInfo) : Bool × Power :=
  let need_refresh :=
    (power.info.charge != info.charge) || (power.info.is_charging != info.is_charging)
  (need_refresh, { power with info := info })

/-- Function `power_check_charging_state`. -/
def power_check_charging_state (power : Power) (is_charging is_charging_done : Bool) :
    Power × List Call :=
  if is_charging then
    if power.info.charge = 100 ∨ is_charging_done = true then
      if power.state ≠ PowerState.Charged then
        let event := { power.event with type := PowerEventType.FullyCharged }
        ({ power with state := PowerState.Charged, event := event },
          [Call.notification_internal_message Sequence.sequence_charged,
           Call.furi_pubsub_publish event])
      else (power, [])
    else if power.state ≠ PowerState.Charging then
      let event := { power.event with type := PowerEventType.StartCharging }
      ({ power with state := PowerState.Charging, event := event },
        [Call.notification_internal_message Sequence.sequence_charging,
         Call.furi_pubsub_publish event])
    else (power, [])
  else if power.state ≠ PowerState.NotCharging then
    let event := { power.event with type := PowerEventType.StopCharging }
    ({ power with state := PowerState.NotCharging, event := event },
      [Call.notification_internal_message Sequence.sequence_not_charging,
       Call.furi_pubsub_publish event])
  else (power, [])

/-- The statement `power->power_off_timeout--` on the `uint8_t` field. -/
def timeout_post_decrement (timeout : Nat) : Nat :=
  (timeout + (UINT8_MOD - 1)) % UINT8_MOD

/-- The block shared by the `Default` and `Hide` branches:
`if(timeout) set_time_left(timeout--) else power_off(power)`. -/
def power_off_countdown (power : Power) : Power × List Call :=
  if power.power_off_timeout ≠ 0 then
    ({ power with power_off_timeout := timeout_post_decrement power.power_off_timeout },
      [Call.power_off_set_time_left power.power_off_timeout])
  else (power, [Call.power_off])

/-- First half of `power_check_low_battery` (after the gauge guard): the
"check battery charge and vbus voltage" conditional. -/
def low_battery_entry_check (power : Power) : Power × List Call :=
  if power.info.is_shutdown_requested = true ∧
      power.info.voltage_vbus < POWER_VBUS_LOW_THRESHOLD ∧
      power.show_battery_low_warning = true then
    ({ power with battery_low := true },
      if power.battery_low = false then
        [Call.view_holder_send_to_front, Call.view_holder_set_view (some View.power_off)]
      else [])
  else
    if power.battery_low = true then
      ({ power with power_off_timeout := POWER_OFF_TIMEOUT_S, battery_low := false },
        [Call.view_holder_set_view none])
    else ({ power with battery_low := false }, [])

/-- Second half of `power_check_low_battery`: "if battery low, update view and
switch off power after timeout". -/
def low_battery_response (power : Power) (response : PowerOffResponse) : Power × List Call :=
  if power.battery_low = true then
    match response with
    | PowerOffResponse.Default =>
      let r := power_off_countdown power
      (r.1, Call.power_off_get_response :: r.2)
    | PowerOffResponse.Ok => (power, [Call.power_off_get_response, Call.power_off])
    | PowerOffResponse.Hide =>
      let r := power_off_countdown power
      (r.1, Call.power_off_get_response :: Call.view_holder_set_view none :: r.2)
    | PowerOffResponse.Cancel =>
      (power, [Call.power_off_get_response, Call.view_holder_set_view none])
  else (power, [])

/-- Function `power_check_low_battery`. -/
def power_check_low_battery (power : Power) (response : PowerOffResponse) :
    Power × List Call :=
  if power.info.gauge_is_ok = false then (power, [])
  else
    let r1 := low_battery_entry_check power
    let r2 := low_battery_response r1.1 response
    (r2.1, r1.2 ++ r2.2)

/-- Function `power_check_battery_level_change`. -/
def power_check_battery_level_change (power : Power) : Power × List Call :=
  if power.battery_level ≠ power.info.charge then
    let event : PowerEvent :=
      { type := PowerEventType.BatteryLevelChanged, battery_level := power.info.charge }
    ({ power with battery_level := power.info.charge, event := event },
      [Call.furi_pubsub_publish event])
  else (power, [])

/-- The OTG part of `power_tick_callback`: fault check, then the deferred
enable (whose result the tick ignores). -/
def power_tick_otg (power : Power) (otg_fault : Bool) : Power × List Call :=
  let r1 : Power × List Call :=
    if otg_fault then
      ({ power with is_otg_requested := false },
        [Call.furi_log LogLine.otg_fault, Call.furi_hal_power_disable_otg])
    else (power, [])
  let c2 : List Call :=
    if r1.1.is_otg_requested = true ∧
        (r1.1.info.is_otg_enabled = false ∧ r1.1.info.voltage_vbus < OTG_VBUS_THRESHOLD) then
      [Call.furi_log LogLine.otg_enabling, Call.furi_hal_power_enable_otg]
    else []
  (r1.1, r1.2 ++ c2)

/-- Function `power_tick_callback`. -/
def power_tick_callback (power : Power) (input : TickInput) : Power × List Call :=
  let r1 := power_update_info power input.info
  let r2 := power_check_low_battery r1.2 input.response
  let r3 := power_check_charging_state r2.1 input.is_charging input.is_charging_done
  let r4 := power_check_battery_level_change r3.1
  let c5 : List Call := if r1.1 = true then [Call.view_port_update] else []
  let r6 := power_tick_otg r4.1 input.otg_fault
  (r6.1, r2.2 ++ r3.2 ++ r4.2 ++ c5 ++ r6.2)

/-! ## Message handlers -/

/-- Function `power_handle_shutdown`: ends in `furi_halt`, which does not return. -/
def power_handle_shutdown : List Call :=
  [Call.furi_hal_power_off,
   Call.view_holder_send_to_front,
   Call.view_holder_set_view (some View.power_unplug_usb),
   Call.furi_delay_ms 100,
   Call.furi_halt]

/-- Function `power_handle_reboot`: the calls made and how the handler ends
(`furi_crash` and `furi_hal_power_reset` do not return). -/
def power_handle_reboot (mode : PowerBootMode) : List Call × Exit :=
  match mode with
  | PowerBootMode.Normal =>
    ([Call.update_operation_disarm, Call.furi_hal_power_reset], Exit.reset)
  | PowerBootMode.Dfu =>
    ([Call.furi_hal_rtc_set_boot_mode FuriHalRtcBootMode.Dfu, Call.furi_hal_power_reset],
      Exit.reset)
  | PowerBootMode.UpdateStart =>
    ([Call.furi_hal_rtc_set_boot_mode FuriHalRtcBootMode.PreUpdate, Call.furi_hal_power_reset],
      Exit.reset)
  | PowerBootMode.Other _ => ([Call.furi_crash], Exit.crashed)

/-- The loop `while(retries-- > 0) { if(furi_hal_power_enable_otg()) break; }`.
`enable k` is the result of the call numbered `k` (from 0) of the enable
primitive; `attempt` is the number of the next call.  Returns the value of
`retries` after the loop and the calls made.  When the test reads 0 the loop is
left and the post-decrement wraps the `size_t` counter to `SIZE_MAX`. -/
def otg_enable_loop (enable : Nat → Bool) : Nat → Nat → Nat × List Call
  | 0, _ => (SIZE_MAX, [])
  | retries + 1, attempt =>
    if enable attempt = true then (retries, [Call.furi_hal_power_enable_otg])
    else
      let r := otg_enable_loop enable retries (attempt + 1)
      (r.1, Call.furi_hal_power_enable_otg :: r.2)

/-- The `PowerMessageTypeSwitchOTG` case of the dispatch. -/
def power_switch_otg (power : Power) (value : Bool) (enable : Nat → Bool) :
    Power × List Call :=
  let power1 := { power with is_otg_requested := value }
  if power1.is_otg_requested = true then
    if power1.info.voltage_vbus < OTG_VBUS_THRESHOLD then
      let r := otg_enable_loop enable 5 0
      (power1, r.2 ++ (if r.1 = 0 then [Call.furi_log LogLine.otg_enable_failed] else []))
    else (power1, [Call.furi_log LogLine.otg_postponed])
  else (power1, [Call.furi_hal_power_disable_otg])

/-- The tail of `power_message_callback`:
`if(msg.lock) api_lock_unlock(msg.lock);`. -/
def message_unlock (lock : Option Nat) : List Call :=
  match lock with
  | some l => [Call.api_lock_unlock l]
  | none => []

/-- Function `power_message_callback` on the message taken from the queue.  `enable`
gives the results of the calls of the OTG enable primitive. -/
def power_message_callback (power : Power) (msg : PowerMessage) (enable : Nat → Bool) :
    Outcome :=
  match msg.type with
  | PowerMessageType.Shutdown =>
    { power := power, calls := power_handle_shutdown, exit := Exit.halted }
  | PowerMessageType.Reboot =>
    let r := power_handle_reboot msg.boot_mode
    { power := power, calls := r.1, exit := r.2 }
  | PowerMessageType.GetInfo =>
    { power := power,
      calls := Call.store_power_info power.info :: message_unlock msg.lock,
      exit := Exit.returned }
  | PowerMessageType.IsBatteryHealthy =>
    { power := power,
      calls := Call.store_bool (decide (POWER_HEALTH_LOW_THRESHOLD < power.info.health))
        :: message_unlock msg.lock,
      exit := Exit.returned }
  | PowerMessageType.ShowBatteryLowWarning =>
    { power := { power with show_battery_low_warning := msg.bool_param },
      calls := message_unlock msg.lock,
      exit := Exit.returned }
  | PowerMessageType.SwitchOTG =>
    let r := power_switch_otg power msg.bool_param enable
    { power := r.1, calls := r.2 ++ message_unlock msg.lock, exit := Exit.returned }
  | PowerMessageType.Unknown _ =>
    { power := power, calls := [Call.furi_crash], exit := Exit.crashed }

/-! ## Start-up and the event loop -/

/-- Modelled from the spec: the memory `power_alloc` receives from the
allocator (not under src/).  The allocator of the firmware zero-fills, and
`power_alloc` relies on it for every field it does not assign: the flow starts
idle, the charge state NotCharging, no level published.  The zero value of each
enumeration is its first enumerator. -/
def power_zeroed : Power :=
  { event := { type := PowerEventType.StopCharging, battery_level := 0 },
    state := PowerState.NotCharging,
    info :=
      { gauge_is_ok := false, is_charging := false, is_shutdown_requested := false,
        is_otg_enabled := false, current_charger := 0, current_gauge := 0,
        voltage_battery_charge_limit := 0, voltage_charger := 0, voltage_gauge := 0,
        voltage_vbus := 0, capacity_remaining := 0, capacity_full := 0,
        temperature_charger := 0, temperature_gauge := 0, charge := 0, health := 0 },
    battery_low := false,
    show_battery_low_warning := false,
    is_otg_requested := false,
    battery_level := 0,
    power_off_timeout := 0 }

/-- Function `power_alloc`: the two assignments of its "state initialization". -/
def power_alloc : Power :=
  { power_zeroed with
    power_off_timeout := POWER_OFF_TIMEOUT_S,
    show_battery_low_warning := true }

/-- Function `power_srv` in normal boot mode, up to the start of the event loop:
`power_alloc` followed by the first `power_update_info` (whose return value is
dropped). -/
def power_srv (first_sample : PowerInfo) : Power :=
  (power_update_info power_alloc first_sample).2

/-- One wake-up of the event loop: the periodic tick, or one message taken
from the queue (with the results of the OTG enable primitive for that
handler). -/
inductive LoopEvent where
  | tick (input : TickInput)
  | message (msg : PowerMessage) (enable : Nat → Bool)

/-- The handler run for one wake-up. -/
def loop_step (power : Power) (ev : LoopEvent) : Outcome :=
  match ev with
  | LoopEvent.tick input =>
    let r := power_tick_callback power input
    { power := r.1, calls := r.2, exit := Exit.returned }
  | LoopEvent.message msg enable => power_message_callback power msg enable

/-- Function `furi_event_loop_run` over a finite list of wake-ups: handlers run one
after the other, each to completion; the loop stops at the first handler that
does not return. -/
def furi_event_loop_run (power : Power) : List LoopEvent → Outcome
  | [] => { power := power, calls := [], exit := Exit.returned }
  | ev :: rest =>
    let o := loop_step power ev
    match o.exit with
    | Exit.returned =>
      let o2 := furi_event_loop_run o.power rest
      { power := o2.power, calls := o.calls ++ o2.calls, exit := o2.exit }
    | _ => o

/-- The ticks alone: the controller record after a list of ticks. -/
def run_ticks (power : Power) (inputs : List TickInput) : Power :=
  inputs.foldl (fun p i => (power_tick_callback p i).1) power

/-- The calls made by a list of ticks, in order. -/
def run_ticks_calls : Power → List TickInput → List Call
  | _, [] => []
  | power, i :: rest =>
    (power_tick_callback power i).2 ++ run_ticks_calls (power_tick_callback power i).1 rest


/-- Calls on the prompt and its view holder, and the shutdown request: the
calls `power_check_low_battery` can make. -/
def low_battery_call : Call → Bool
  | Call.view_holder_send_to_front => true
  | Call.view_holder_set_view _ => true
  | Call.power_off_get_response => true
  | Call.power_off_set_time_left _ => true
  | Call.power_off => true
  | _ => false

/-- A tick of the low-battery countdown: the gauge is healthy, shutdown is
requested, VBUS is below the threshold and the prompt answers `Default`. -/
def countdown_tick (i : TickInput) : Prop :=
  i.info.gauge_is_ok = true ∧ i.info.is_shutdown_requested = true ∧
    i.info.voltage_vbus < POWER_VBUS_LOW_THRESHOLD ∧ i.response = PowerOffResponse.Default

/-- Sample of the low-battery scenario: gauge healthy, shutdown requested,
VBUS 3.5 V, charge 10 %, not charging. -/
def scenario_info : PowerInfo :=
  { gauge_is_ok := true, is_charging := false, is_shutdown_requested := true,
    is_otg_enabled := false, current_charger := 0, current_gauge := 0,
    voltage_battery_charge_limit := 4.2, voltage_charger := 3.3, voltage_gauge := 3.3,
    voltage_vbus := 3.5, capacity_remaining := 200, capacity_full := 2000,
    temperature_charger := 25, temperature_gauge := 25, charge := 10, health := 95 }

/-- Tick of the low-battery scenario: the prompt answers `Default`. -/
def scenario_tick : TickInput :=
  { info := scenario_info, response := PowerOffResponse.Default, is_charging := false,
    is_charging_done := false, otg_fault := false }

/-- A tick of the scenario of the spec: gauge healthy, shutdown requested,
VBUS 3.5 V, charge 10 %, response `Default`. -/
def scenario_input (i : TickInput) : Prop :=
  i.info.gauge_is_ok = true ∧ i.info.is_shutdown_requested = true ∧
    i.info.voltage_vbus = 3.5 ∧ i.info.charge = 10 ∧ i.response = PowerOffResponse.Default

/-- The entry condition of the low-battery flow on a tick: shutdown requested,
VBUS below the threshold, warnings enabled. -/
def entry_condition (p : Power) (i : TickInput) : Prop :=
  i.info.is_shutdown_requested = true ∧ i.info.voltage_vbus < POWER_VBUS_LOW_THRESHOLD ∧
    p.show_battery_low_warning = true

/-- The scenario tick with the prompt answering `Cancel`. -/
def cancel_tick : TickInput :=
  { scenario_tick with response := PowerOffResponse.Cancel }

/-- The scenario sample with USB power plugged in (VBUS 5 V): the entry
condition fails on it. -/
def plugged_info : PowerInfo :=
  { scenario_info with voltage_vbus := 5 }

/-- A tick on the plugged-in sample with the prompt answering `Cancel`. -/
def plugged_cancel_tick : TickInput :=
  { cancel_tick with info := plugged_info }

/-- An active flow with the countdown at 50 (the state 40 countdown ticks
after start-up leave in the low-battery fields). -/
def active_power : Power :=
  { power_alloc with info := scenario_info, battery_low := true, power_off_timeout := 50 }

/-- The charge-state event a call publishes, if any: the type of a published
event other than `BatteryLevelChanged`. -/
def charge_event : Call → Option PowerEventType
  | Call.furi_pubsub_publish e =>
    if e.type = PowerEventType.BatteryLevelChanged then none else some e.type
  | _ => none

/-- The charge-state events published by a list of calls, in order. -/
def charge_events (calls : List Call) : List PowerEventType :=
  calls.filterMap charge_event

/-- The notification sequence a call plays, if any. -/
def played_sequence : Call → Option Sequence
  | Call.notification_internal_message s => some s
  | _ => none

/-- The notification sequences played by a list of calls, in order. -/
def played_sequences (calls : List Call) : List Sequence :=
  calls.filterMap played_sequence

/-- The charge state the spec assigns to a reading: `Charged` when charging and
(`charge == 100` or charger done), `Charging` when charging otherwise,
`NotCharging` when not charging. -/
def charge_state_of_reading (is_charging : Bool) (charge : Nat) (is_charging_done : Bool) :
    PowerState :=
  if is_charging = true then
    if charge = 100 ∨ is_charging_done = true then PowerState.Charged else PowerState.Charging
  else PowerState.NotCharging

/-- The event the spec attaches to the entry into a charge state. -/
def entry_event : PowerState → PowerEventType
  | PowerState.NotCharging => PowerEventType.StopCharging
  | PowerState.Charging => PowerEventType.StartCharging
  | PowerState.Charged => PowerEventType.FullyCharged

/-- The notification sequence the spec attaches to the entry into a charge
state. -/
def entry_sequence : PowerState → Sequence
  | PowerState.NotCharging => Sequence.sequence_not_charging
  | PowerState.Charging => Sequence.sequence_charging
  | PowerState.Charged => Sequence.sequence_charged

/-- The entry into charge state `s` as the spec words it: the state is stored,
one notification sequence is played and one event is published. -/
def charge_state_entry (p : Power) (s : PowerState) : Power × List Call :=
  ({ p with state := s, event := { p.event with type := entry_event s } },
    [Call.notification_internal_message (entry_sequence s),
     Call.furi_pubsub_publish { p.event with type := entry_event s }])

/-- A tick on which the charger is connected and charging (charge 10 %, charger
not done). -/
def charging_tick : TickInput :=
  { scenario_tick with is_charging := true }

/-- The battery level a call publishes, if any: the payload of a published
`BatteryLevelChanged` event. -/
def level_event : Call → Option Nat
  | Call.furi_pubsub_publish e =>
    if e.type = PowerEventType.BatteryLevelChanged then some e.battery_level else none
  | _ => none

/-- The battery levels published by a list of calls, in order. -/
def level_events (calls : List Call) : List Nat :=
  calls.filterMap level_event

/-- A tick whose sample differs from the scenario sample only in voltages,
a current and a temperature; the charge is the same 10 %. -/
def voltage_only_tick : TickInput :=
  { scenario_tick with
    info := { scenario_info with
      voltage_vbus := 3.4, voltage_gauge := 3.2, current_gauge := 0.1,
      temperature_gauge := 26 } }

/-- The message `SetOtgEnabled(value)` with an optional completion handle. -/
def switch_otg_message (value : Bool) (lock : Option Nat) : PowerMessage :=
  { type := PowerMessageType.SwitchOTG, boot_mode := PowerBootMode.Normal,
    bool_param := value, lock := lock }

/-- Number of calls of the OTG enable primitive in a list of calls. -/
def enable_calls (calls : List Call) : Nat :=
  calls.count Call.furi_hal_power_enable_otg

/-- Outcomes of the enable primitive: the first two calls fail, the third
succeeds. -/
def third_call_succeeds : Nat → Bool :=
  fun k => decide (k = 2)

/-- The completion handle a call signals, if any. -/
def unlock_call : Call → Option Nat
  | Call.api_lock_unlock l => some l
  | _ => none

/-- The completion handles signalled by a list of calls, in order. -/
def unlock_calls (calls : List Call) : List Nat :=
  calls.filterMap unlock_call

/-- The message `Shutdown` carrying completion handle 7. -/
def shutdown_message_with_lock : PowerMessage :=
  { type := PowerMessageType.Shutdown, boot_mode := PowerBootMode.Normal,
    bool_param := false, lock := some 7 }

/-- The message `GetInfo` with an optional completion handle. -/
def get_info_message (lock : Option Nat) : PowerMessage :=
  { type := PowerMessageType.GetInfo, boot_mode := PowerBootMode.Normal,
    bool_param := false, lock := lock }

/-- The message `IsBatteryHealthy` with an optional completion handle. -/
def is_battery_healthy_message (lock : Option Nat) : PowerMessage :=
  { type := PowerMessageType.IsBatteryHealthy, boot_mode := PowerBootMode.Normal,
    bool_param := false, lock := lock }

/-- The snapshot produced by the most recent hardware sampling: the sample of
the latest tick among the wake-ups, or the given sample if there is no tick. -/
def latest_sample (sample : PowerInfo) : List LoopEvent → PowerInfo
  | [] => sample
  | LoopEvent.tick input :: rest => latest_sample input.info rest
  | LoopEvent.message _ _ :: rest => latest_sample sample rest

/-- Outcomes of the enable primitive: every call fails. -/
def enable_always_fails : Nat → Bool :=
  fun _ => false

/-- The scenario sample with battery health 70 %. -/
def health_70_info : PowerInfo :=
  { scenario_info with health := 70 }

/-- The scenario sample with battery health 71 %. -/
def health_71_info : PowerInfo :=
  { scenario_info with health := 71 }

/-- Wake-ups used as an example: a tick, a failed `SetOtgEnabled(true)`, then a
tick with the voltage-only sample. -/
def example_wakeups : List LoopEvent :=
  [LoopEvent.tick scenario_tick,
   LoopEvent.message (switch_otg_message true none) enable_always_fails,
   LoopEvent.tick voltage_only_tick]

/-- A tick with the given readings of the charging-state check: charging flag
(same in the sample), charge and charger-done; the rest is the scenario tick. -/
def reading_tick (is_charging : Bool) (charge : Nat) (is_charging_done : Bool) : TickInput :=
  { scenario_tick with
    info := { scenario_info with is_charging := is_charging, charge := charge },
    is_charging := is_charging,
    is_charging_done := is_charging_done }

/-- The scenario tick with the prompt answering `Hide`. -/
def hide_tick : TickInput :=
  { scenario_tick with response := PowerOffResponse.Hide }

/-- The scenario sample with an unhealthy gauge. -/
def gauge_bad_info : PowerInfo :=
  { scenario_info with gauge_is_ok := false }

/-- The active flow of `active_power` on a snapshot with an unhealthy gauge. -/
def gauge_bad_power : Power :=
  { active_power with info := gauge_bad_info }

/-- Number of calls that disable OTG in a list of calls. -/
def disable_calls (calls : List Call) : Nat :=
  calls.count Call.furi_hal_power_disable_otg

/-- A controller that has OTG requested, on a snapshot with OTG not enabled and
VBUS 3.5 V. -/
def otg_requested_power : Power :=
  { power_srv scenario_info with is_otg_requested := true }

/-- The scenario tick with the hardware reporting an OTG fault. -/
def otg_fault_tick : TickInput :=
  { scenario_tick with otg_fault := true }

/-- Outcomes of the enable primitive: the first four calls fail, the fifth
succeeds. -/
def fifth_call_succeeds : Nat → Bool :=
  fun k => decide (k = 4)

/-- The message `SetLowBatteryWarningEnabled(value)` with an optional
completion handle. -/
def show_warning_message (value : Bool) (lock : Option Nat) : PowerMessage :=
  { type := PowerMessageType.ShowBatteryLowWarning, boot_mode := PowerBootMode.Normal,
    bool_param := value, lock := lock }

/-- The literal `4.2f` of `power_draw_battery_callback`: the single-precision
value nearest to 4.2, which is 8808038 / 2^21. -/
def CHARGE_VOLTAGE_LIMIT_THRESHOLD : ℚ := 8808038 / 2097152

/-- Modelled from the spec: the three icons the battery glyph uses (the icon
assets are not under src/): the battery frame and the two layers of the spec's
charging-lightning overlay. -/
inductive Icon where
  | I_Battery_26x8
  | I_Charging_lightning_mask_9x10
  | I_Charging_lightning_9x10
deriving DecidableEq, Repr

/-- Modelled from the spec: the two canvas colors `power_draw_battery_callback`
sets (the canvas header is not under src/). -/
inductive Color where
  | ColorWhite
  | ColorBlack
deriving DecidableEq, Repr

/-- One call of `power_draw_battery_callback` on the canvas. -/
inductive CanvasCall where
  | canvas_draw_icon (x y : Int) (icon : Icon)
  | canvas_draw_box (x y : Int) (width height : Nat)
  | canvas_invert_color
  | canvas_draw_dot (x y : Int)
  | canvas_set_bitmap_mode (alpha : Bool)
  | canvas_set_color (color : Color)
deriving DecidableEq, Repr

/-- The loop `for(uint8_t x = 3; x <= battery_bar_width; x++)` of the cross
pattern, given the number of iterations left, the current `x` and `cross_odd`.
With a charge of at most 255 the bar is at most 51 wide, so `x` never wraps. -/
def cross_pattern : Nat → Nat → Bool → List CanvasCall
  | 0, _, _ => []
  | n + 1, x, cross_odd =>
    CanvasCall.canvas_draw_dot x (3 + (if cross_odd = true then 1 else 0)) ::
      cross_pattern n (x + 1) (!cross_odd)

/-- Function `power_draw_battery_callback`: the canvas calls that draw the battery
glyph from the controller record. -/
def power_draw_battery_callback (power : Power) : List CanvasCall :=
  CanvasCall.canvas_draw_icon 0 0 Icon.I_Battery_26x8 ::
    (if power.info.gauge_is_ok = true then
      [CanvasCall.canvas_draw_box 2 2 ((power.info.charge + 4) / 5) 4] ++
      (if power.info.voltage_battery_charge_limit < CHARGE_VOLTAGE_LIMIT_THRESHOLD then
        [CanvasCall.canvas_invert_color] ++
        cross_pattern ((power.info.charge + 4) / 5 % UINT8_MOD + 1 - 3) 3 false ++
        [CanvasCall.canvas_invert_color]
       else []) ++
      (if power.state = PowerState.Charging then
        [CanvasCall.canvas_set_bitmap_mode true,
         CanvasCall.canvas_set_color Color.ColorWhite,
         CanvasCall.canvas_draw_icon 8 (-1) Icon.I_Charging_lightning_mask_9x10,
         CanvasCall.canvas_set_color Color.ColorBlack,
         CanvasCall.canvas_draw_icon 8 (-1) Icon.I_Charging_lightning_9x10,
         CanvasCall.canvas_set_bitmap_mode false]
       else [])
     else [CanvasCall.canvas_draw_box 8 3 8 2])

/-- A sample with the charger connected: charging, gauge healthy, VBUS 5 V,
charge 50 %. -/
def charger_info : PowerInfo :=
  { gauge_is_ok := true, is_charging := true, is_shutdown_requested := false,
    is_otg_enabled := false, current_charger := 0.5, current_gauge := 0.5,
    voltage_battery_charge_limit := 4.2, voltage_charger := 4, voltage_gauge := 4,
    voltage_vbus := 5, capacity_remaining := 1000, capacity_full := 2000,
    temperature_charger := 30, temperature_gauge := 30, charge := 50, health := 95 }

/-- A tick on the charger sample; the charger reports done or not. -/
def charger_tick (is_charging_done : Bool) : TickInput :=
  { info := charger_info, response := PowerOffResponse.Default, is_charging := true,
    is_charging_done := is_charging_done, otg_fault := false }

/-- A tick on a degraded sensor: the plugged-in sample (VBUS 5 V) with an
unhealthy gauge. -/
def degraded_tick : TickInput :=
  { scenario_tick with info := { plugged_info with gauge_is_ok := false } }

/-! ## Lemmas on the low-battery check -/

theorem timeout_post_decrement_pos (t : Nat) (h0 : t ≠ 0) (h : t < UINT8_MOD) :
    timeout_post_decrement t = t - 1 := by
  unfold timeout_post_decrement UINT8_MOD at *
  omega

/-- The tick leaves the three low-battery fields as `power_check_low_battery`
set them. -/
theorem tick_low_battery_fields (p : Power) (i : TickInput) :
    (power_tick_callback p i).1.power_off_timeout =
        (power_check_low_battery (power_update_info p i.info).2 i.response).1.power_off_timeout ∧
    (power_tick_callback p i).1.battery_low =
        (power_check_low_battery (power_update_info p i.info).2 i.response).1.battery_low ∧
    (power_tick_callback p i).1.show_battery_low_warning =
        (power_check_low_battery (power_update_info p i.info).2 i.response).1.show_battery_low_warning := by
  simp only [power_tick_callback, power_tick_otg, power_check_battery_level_change,
    power_check_charging_state]
  refine ⟨?_, ?_, ?_⟩ <;> (repeat' split) <;> rfl

theorem check_low_battery_calls_filter (p : Power) (r : PowerOffResponse) :
    (power_check_low_battery p r).2.filter low_battery_call = (power_check_low_battery p r).2 := by
  rw [List.filter_eq_self]
  intro c hc
  simp only [power_check_low_battery, low_battery_entry_check, low_battery_response,
    power_off_countdown] at hc
  cases r <;> (repeat' split at hc) <;> simp at hc <;> 
    (try rcases hc with h | h | h | h | h) <;> (try subst h) <;> (try rfl)

/-- Of the calls of a tick, those on the prompt, the view holder and
`power_off` are exactly the calls of `power_check_low_battery`. -/
theorem tick_calls_filter (p : Power) (i : TickInput) :
    (power_tick_callback p i).2.filter low_battery_call =
      (power_check_low_battery (power_update_info p i.info).2 i.response).2 := by
  have h := check_low_battery_calls_filter (power_update_info p i.info).2 i.response
  simp only [power_tick_callback, List.filter_append, h]
  simp only [power_tick_otg, power_check_battery_level_change, power_check_charging_state]
  (repeat' split) <;> simp [low_battery_call]

theorem tick_count_low_battery_call (p : Power) (i : TickInput) (c : Call)
    (hc : low_battery_call c = true) :
    (power_tick_callback p i).2.count c =
      (power_check_low_battery (power_update_info p i.info).2 i.response).2.count c := by
  rw [← tick_calls_filter, List.count_filter hc]

theorem tick_mem_low_battery_call (p : Power) (i : TickInput) (c : Call)
    (hc : low_battery_call c = true) :
    c ∈ (power_tick_callback p i).2 ↔
      c ∈ (power_check_low_battery (power_update_info p i.info).2 i.response).2 := by
  rw [← tick_calls_filter, List.mem_filter]
  simp [hc]

/-- The low-battery check on a qualifying tick with the `Default` response. -/
theorem check_low_battery_default (p : Power)
    (hg : p.info.gauge_is_ok = true) (hs : p.info.is_shutdown_requested = true)
    (hv : p.info.voltage_vbus < POWER_VBUS_LOW_THRESHOLD)
    (hw : p.show_battery_low_warning = true) :
    power_check_low_battery p PowerOffResponse.Default =
      (if p.power_off_timeout ≠ 0 then
          { p with battery_low := true,
                   power_off_timeout := timeout_post_decrement p.power_off_timeout }
        else { p with battery_low := true },
       (if p.battery_low = false then
          [Call.view_holder_send_to_front, Call.view_holder_set_view (some View.power_off)]
        else []) ++
        Call.power_off_get_response ::
          (if p.power_off_timeout ≠ 0 then [Call.power_off_set_time_left p.power_off_timeout]
           else [Call.power_off])) := by
  simp only [power_check_low_battery, low_battery_entry_check, low_battery_response,
    power_off_countdown, hg, hs, hv, hw]
  by_cases ht : p.power_off_timeout = 0 <;> simp [ht]


/-- One countdown tick with warnings enabled: the calls of the low-battery
check and the fields it leaves. -/
theorem countdown_tick_step (p : Power) (i : TickInput)
    (hw : p.show_battery_low_warning = true) (hi : countdown_tick i) :
    (power_tick_callback p i).1.show_battery_low_warning = true ∧
    (power_tick_callback p i).1.battery_low = true ∧
    (power_tick_callback p i).1.power_off_timeout =
      (if p.power_off_timeout ≠ 0 then timeout_post_decrement p.power_off_timeout else 0) ∧
    (power_tick_callback p i).2.filter low_battery_call =
      (if p.battery_low = false then
          [Call.view_holder_send_to_front, Call.view_holder_set_view (some View.power_off)]
        else []) ++
        Call.power_off_get_response ::
          (if p.power_off_timeout ≠ 0 then [Call.power_off_set_time_left p.power_off_timeout]
           else [Call.power_off]) := by
  obtain ⟨hg, hs, hv, hr⟩ := hi
  have hf := tick_low_battery_fields p i
  have hc := tick_calls_filter p i
  have hd := check_low_battery_default (power_update_info p i.info).2 hg hs hv hw
  rw [hr] at hf hc
  rw [hd] at hf hc
  obtain ⟨h1, h2, h3⟩ := hf
  refine ⟨?_, ?_, ?_, ?_⟩
  · rw [h3]; split <;> exact hw
  · rw [h2]; split <;> rfl
  · rw [h1]
    by_cases ht : p.power_off_timeout = 0 <;> simp [ht, power_update_info]
  · rw [hc]; rfl

theorem run_ticks_cons (p : Power) (i : TickInput) (rest : List TickInput) :
    run_ticks p (i :: rest) = run_ticks (power_tick_callback p i).1 rest := rfl

theorem run_ticks_append (p : Power) (l1 l2 : List TickInput) :
    run_ticks p (l1 ++ l2) = run_ticks (run_ticks p l1) l2 := by
  simp [run_ticks, List.foldl_append]

/-- State of the low-battery fields after a run of countdown ticks. -/
theorem run_countdown_ticks (inputs : List TickInput) :
    ∀ (p : Power), p.show_battery_low_warning = true → p.power_off_timeout < UINT8_MOD →
      (∀ i ∈ inputs, countdown_tick i) →
      (run_ticks p inputs).show_battery_low_warning = true ∧
      (run_ticks p inputs).power_off_timeout = p.power_off_timeout - inputs.length ∧
      (inputs ≠ [] → (run_ticks p inputs).battery_low = true) := by
  induction inputs with
  | nil => intro p hw _ _; simp [run_ticks, hw]
  | cons i rest ih =>
    intro p hw ht hall
    obtain ⟨h1, h2, h3, _⟩ := countdown_tick_step p i hw (hall i (List.mem_cons_self i rest))
    have h3b : (power_tick_callback p i).1.power_off_timeout = p.power_off_timeout - 1 := by
      rw [h3]
      by_cases h0 : p.power_off_timeout = 0
      · simp [h0]
      · simp [h0, timeout_post_decrement_pos _ h0 ht]
    have ht2 : (power_tick_callback p i).1.power_off_timeout < UINT8_MOD := by
      rw [h3b]; omega
    obtain ⟨r1, r2, r3⟩ := ih (power_tick_callback p i).1 h1 ht2
      (fun x hx => hall x (List.mem_cons_of_mem i hx))
    rw [run_ticks_cons]
    refine ⟨r1, ?_, ?_⟩
    · rw [r2, h3b, List.length_cons]; omega
    · intro _
      cases rest with
      | nil => simpa [run_ticks] using h2
      | cons j rest2 => exact r3 (List.cons_ne_nil j rest2)


theorem run_ticks_calls_append (l1 : List TickInput) :
    ∀ (p : Power) (l2 : List TickInput),
      run_ticks_calls p (l1 ++ l2) = run_ticks_calls p l1 ++ run_ticks_calls (run_ticks p l1) l2 := by
  induction l1 with
  | nil => intro p l2; simp [run_ticks_calls, run_ticks]
  | cons i rest ih =>
    intro p l2
    simp [run_ticks_calls, run_ticks_cons, ih, List.append_assoc]

/-- Shutdown triggers and prompt calls over a run of countdown ticks. -/
theorem run_countdown_counts (inputs : List TickInput) :
    ∀ (p : Power), p.show_battery_low_warning = true → p.power_off_timeout < UINT8_MOD →
      (∀ i ∈ inputs, countdown_tick i) →
      (run_ticks_calls p inputs).count Call.power_off = inputs.length - p.power_off_timeout ∧
      (run_ticks_calls p inputs).count (Call.view_holder_set_view (some View.power_off)) =
        (if p.battery_low = false ∧ inputs ≠ [] then 1 else 0) ∧
      (run_ticks_calls p inputs).count (Call.view_holder_set_view none) = 0 := by
  induction inputs with
  | nil => intro p _ _ _; simp [run_ticks_calls]
  | cons i rest ih =>
    intro p hw ht hall
    obtain ⟨h1, h2, h3, h4⟩ := countdown_tick_step p i hw (hall i (List.mem_cons_self i rest))
    have h3b : (power_tick_callback p i).1.power_off_timeout = p.power_off_timeout - 1 := by
      rw [h3]
      by_cases h0 : p.power_off_timeout = 0
      · simp [h0]
      · simp [h0, timeout_post_decrement_pos _ h0 ht]
    have ht2 : (power_tick_callback p i).1.power_off_timeout < UINT8_MOD := by
      rw [h3b]; omega
    obtain ⟨r1, r2, r3⟩ := ih (power_tick_callback p i).1 h1 ht2
      (fun x hx => hall x (List.mem_cons_of_mem i hx))
    have c1 : (power_tick_callback p i).2.count Call.power_off =
        (if p.power_off_timeout = 0 then 1 else 0) := by
      rw [← List.count_filter (show low_battery_call Call.power_off = true from rfl), h4]
      by_cases hb : p.battery_low = false <;> by_cases h0 : p.power_off_timeout = 0 <;>
        simp [hb, h0]
    have c2 : (power_tick_callback p i).2.count (Call.view_holder_set_view (some View.power_off)) =
        (if p.battery_low = false then 1 else 0) := by
      rw [← List.count_filter
        (show low_battery_call (Call.view_holder_set_view (some View.power_off)) = true from rfl), h4]
      by_cases hb : p.battery_low = false <;> by_cases h0 : p.power_off_timeout = 0 <;>
        simp [hb, h0]
    have c3 : (power_tick_callback p i).2.count (Call.view_holder_set_view none) = 0 := by
      rw [← List.count_filter
        (show low_battery_call (Call.view_holder_set_view none) = true from rfl), h4]
      by_cases hb : p.battery_low = false <;> by_cases h0 : p.power_off_timeout = 0 <;>
        simp [hb, h0]
    simp only [run_ticks_calls, List.count_append, c1, c2, c3, r1, r2, r3, h3b, h2,
      List.length_cons]
    refine ⟨?_, ?_, ?_⟩
    · by_cases h0 : p.power_off_timeout = 0
      · simp [h0]; omega
      · simp [h0]; omega
    · by_cases hb : p.battery_low = false <;> simp [hb]
    · trivial

/-! ## Claims -/

/-- C1. Low-battery countdown.  From a controller state with the countdown at
90 and warnings enabled (the state `power_alloc` builds), take any run of
consecutive countdown ticks (gauge healthy, shutdown requested, VBUS below 4.0,
response `Default`) and look at its last tick, tick number `pre.length + 1`.
Before it the countdown is `90 - pre.length`; the tick never raises the
countdown; each of ticks 1..90 lowers it by exactly one and requests no
shutdown; tick 91 (and every later one) requests shutdown. -/
theorem low_battery_countdown (p : Power) (pre : List TickInput) (i : TickInput)
    (h_timeout : p.power_off_timeout = POWER_OFF_TIMEOUT_S)
    (h_warn : p.show_battery_low_warning = true)
    (h_run : ∀ x ∈ pre ++ [i], countdown_tick x) :
    (run_ticks p pre).power_off_timeout = 90 - pre.length ∧
    (power_tick_callback (run_ticks p pre) i).1.power_off_timeout ≤
      (run_ticks p pre).power_off_timeout ∧
    (pre.length < 90 →
      (power_tick_callback (run_ticks p pre) i).1.power_off_timeout + 1 =
        (run_ticks p pre).power_off_timeout ∧
      Call.power_off ∉ (power_tick_callback (run_ticks p pre) i).2) ∧
    (90 ≤ pre.length → Call.power_off ∈ (power_tick_callback (run_ticks p pre) i).2) := by
  have ht : p.power_off_timeout < UINT8_MOD := by
    rw [h_timeout]; decide
  obtain ⟨r1, r2, _⟩ := run_countdown_ticks pre p h_warn ht
    (fun x hx => h_run x (List.mem_append_left _ hx))
  rw [h_timeout] at r2
  have r2b : (run_ticks p pre).power_off_timeout = 90 - pre.length := r2
  have hi : countdown_tick i := h_run i (by simp)
  obtain ⟨_, _, s3, s4⟩ := countdown_tick_step (run_ticks p pre) i r1 hi
  have hlt : (run_ticks p pre).power_off_timeout < UINT8_MOD := by
    rw [r2b]; unfold UINT8_MOD; omega
  have hmem : Call.power_off ∈ (power_tick_callback (run_ticks p pre) i).2 ↔
      (run_ticks p pre).power_off_timeout = 0 := by
    rw [← List.count_pos_iff,
      ← List.count_filter (show low_battery_call Call.power_off = true from rfl), s4]
    by_cases hb : (run_ticks p pre).battery_low = false <;>
      by_cases h0 : (run_ticks p pre).power_off_timeout = 0 <;> simp [hb, h0]
  refine ⟨r2b, ?_, ?_, ?_⟩
  · rw [s3]
    by_cases h0 : (run_ticks p pre).power_off_timeout = 0
    · simp [h0]
    · simp only [ne_eq, h0, not_false_eq_true, if_true]
      rw [timeout_post_decrement_pos _ h0 hlt]; omega
  · intro hn
    have h0 : (run_ticks p pre).power_off_timeout ≠ 0 := by rw [r2b]; omega
    refine ⟨?_, ?_⟩
    · rw [s3]
      simp only [ne_eq, h0, not_false_eq_true, if_true]
      rw [timeout_post_decrement_pos _ h0 hlt]; omega
    · rw [hmem]; exact h0
  · intro hn
    rw [hmem, r2b]; omega


theorem scenario_tick_countdown : countdown_tick scenario_tick := by
  refine ⟨rfl, rfl, ?_, rfl⟩
  norm_num [scenario_tick, scenario_info, POWER_VBUS_LOW_THRESHOLD]

theorem scenario_input_countdown (i : TickInput) (h : scenario_input i) : countdown_tick i := by
  obtain ⟨h1, h2, h3, _, h5⟩ := h
  refine ⟨h1, h2, ?_, h5⟩
  rw [h3]; norm_num [POWER_VBUS_LOW_THRESHOLD]

theorem scenario_tick_input : scenario_input scenario_tick := by
  refine ⟨rfl, rfl, rfl, rfl, rfl⟩

/-- Witness of C1: the start-up state followed by 91 scenario ticks; the 91st
tick requests shutdown. -/
theorem low_battery_countdown_witness :
    (∀ x ∈ List.replicate 90 scenario_tick ++ [scenario_tick], countdown_tick x) ∧
    (run_ticks (power_srv scenario_info) (List.replicate 90 scenario_tick)).power_off_timeout = 0 ∧
    Call.power_off ∈
      (power_tick_callback
        (run_ticks (power_srv scenario_info) (List.replicate 90 scenario_tick)) scenario_tick).2 := by
  have hall : ∀ x ∈ List.replicate 90 scenario_tick ++ [scenario_tick], countdown_tick x := by
    intro x hx
    have : x = scenario_tick := by
      rcases List.mem_append.1 hx with h | h
      · exact List.eq_of_mem_replicate h
      · simpa using h
    rw [this]; exact scenario_tick_countdown
  have h := low_battery_countdown (power_srv scenario_info) (List.replicate 90 scenario_tick)
    scenario_tick rfl rfl hall
  refine ⟨hall, ?_, ?_⟩
  · simpa using h.1
  · exact h.2.2.2 (by simp)

/-- C2 as stated fails: from the start-up state, 90 scenario ticks request no
shutdown at all (the prompt is shown once and the countdown has reached 0). -/
theorem scenario_90_ticks_no_shutdown :
    (∀ x ∈ List.replicate 90 scenario_tick, scenario_input x) ∧
    (run_ticks_calls (power_srv scenario_info) (List.replicate 90 scenario_tick)).count
      Call.power_off = 0 ∧
    ¬ ((run_ticks_calls (power_srv scenario_info) (List.replicate 90 scenario_tick)).count
        Call.power_off = 1 ∧
      (run_ticks_calls (power_srv scenario_info) (List.replicate 90 scenario_tick)).count
        (Call.view_holder_set_view (some View.power_off)) = 1) := by
  have hall : ∀ x ∈ List.replicate 90 scenario_tick, countdown_tick x := by
    intro x hx
    rw [List.eq_of_mem_replicate hx]; exact scenario_tick_countdown
  have h := (run_countdown_counts (List.replicate 90 scenario_tick) (power_srv scenario_info)
    rfl (by decide) hall).1
  have h0 : (run_ticks_calls (power_srv scenario_info) (List.replicate 90 scenario_tick)).count
      Call.power_off = 0 := by
    rw [h]; rfl
  refine ⟨?_, h0, ?_⟩
  · intro x hx
    rw [List.eq_of_mem_replicate hx]; exact scenario_tick_input
  · rw [h0]; simp

/-- C2, amended.  From the start-up state (any first sample), a run of scenario
ticks (gauge healthy, shutdown requested, VBUS 3.5, charge 10, response
`Default`): 90 ticks show the prompt exactly once, never hide it, request no
shutdown and leave the countdown at 0; 91 ticks show the prompt exactly once
and request shutdown exactly once. -/
theorem scenario_shutdown_on_tick_91 (first_sample : PowerInfo) (inputs : List TickInput)
    (h_in : ∀ x ∈ inputs, scenario_input x) :
    (inputs.length = 90 →
      (run_ticks_calls (power_srv first_sample) inputs).count Call.power_off = 0 ∧
      (run_ticks_calls (power_srv first_sample) inputs).count
        (Call.view_holder_set_view (some View.power_off)) = 1 ∧
      (run_ticks_calls (power_srv first_sample) inputs).count
        (Call.view_holder_set_view none) = 0 ∧
      (run_ticks (power_srv first_sample) inputs).power_off_timeout = 0) ∧
    (inputs.length = 91 →
      (run_ticks_calls (power_srv first_sample) inputs).count Call.power_off = 1 ∧
      (run_ticks_calls (power_srv first_sample) inputs).count
        (Call.view_holder_set_view (some View.power_off)) = 1 ∧
      (run_ticks_calls (power_srv first_sample) inputs).count
        (Call.view_holder_set_view none) = 0) := by
  have hall : ∀ x ∈ inputs, countdown_tick x := fun x hx => scenario_input_countdown x (h_in x hx)
  have hw : (power_srv first_sample).show_battery_low_warning = true := rfl
  have ht : (power_srv first_sample).power_off_timeout = 90 := rfl
  have hb : (power_srv first_sample).battery_low = false := rfl
  have hlt : (power_srv first_sample).power_off_timeout < UINT8_MOD := by rw [ht]; decide
  obtain ⟨c1, c2, c3⟩ := run_countdown_counts inputs (power_srv first_sample) hw hlt hall
  obtain ⟨_, s2, _⟩ := run_countdown_ticks inputs (power_srv first_sample) hw hlt hall
  rw [ht] at c1 s2
  have hne : ∀ n, inputs.length = n + 1 → inputs ≠ [] := by
    intro n hn h; rw [h] at hn; simp at hn
  constructor
  · intro hlen
    refine ⟨by rw [c1, hlen], ?_, c3, by rw [s2, hlen]⟩
    rw [c2]; simp [hb, hne 89 hlen]
  · intro hlen
    refine ⟨by rw [c1, hlen], ?_, c3⟩
    rw [c2]; simp [hb, hne 90 hlen]

/-- Witness of C2 (amended): 91 copies of the scenario tick. -/
theorem scenario_shutdown_on_tick_91_witness :
    (∀ x ∈ List.replicate 91 scenario_tick, scenario_input x) ∧
    (run_ticks_calls (power_srv scenario_info) (List.replicate 91 scenario_tick)).count
      Call.power_off = 1 ∧
    (run_ticks_calls (power_srv scenario_info) (List.replicate 91 scenario_tick)).count
      (Call.view_holder_set_view (some View.power_off)) = 1 := by
  have hall : ∀ x ∈ List.replicate 91 scenario_tick, scenario_input x := by
    intro x hx
    rw [List.eq_of_mem_replicate hx]; exact scenario_tick_input
  have h := (scenario_shutdown_on_tick_91 scenario_info (List.replicate 91 scenario_tick) hall).2
    (by simp)
  exact ⟨hall, h.1, h.2.1⟩


/-- The low-battery part of a tick when the gauge is healthy and the entry
condition holds: the flag is set, the prompt is shown if the flag was clear,
then the response is handled. -/
theorem tick_entry (p : Power) (i : TickInput) (hg : i.info.gauge_is_ok = true)
    (hc : entry_condition p i) :
    power_check_low_battery (power_update_info p i.info).2 i.response =
      ((low_battery_response { p with info := i.info, battery_low := true } i.response).1,
       (if p.battery_low = false then
          [Call.view_holder_send_to_front, Call.view_holder_set_view (some View.power_off)]
        else []) ++
       (low_battery_response { p with info := i.info, battery_low := true } i.response).2) := by
  obtain ⟨h1, h2, h3⟩ := hc
  simp [power_check_low_battery, low_battery_entry_check, power_update_info, hg, h1, h2, h3]

/-- The low-battery part of a tick when the gauge is healthy and the entry
condition fails: the flag is cleared; if it was set the prompt is hidden and the
countdown reset. -/
theorem tick_exit (p : Power) (i : TickInput) (hg : i.info.gauge_is_ok = true)
    (hc : ¬ entry_condition p i) :
    power_check_low_battery (power_update_info p i.info).2 i.response =
      (if p.battery_low = true then
        ({ p with info := i.info, power_off_timeout := POWER_OFF_TIMEOUT_S, battery_low := false },
          [Call.view_holder_set_view none])
       else ({ p with info := i.info, battery_low := false }, [])) := by
  have hc2 : ¬ (i.info.is_shutdown_requested = true ∧
      i.info.voltage_vbus < POWER_VBUS_LOW_THRESHOLD ∧ p.show_battery_low_warning = true) := hc
  simp only [power_check_low_battery, low_battery_entry_check, power_update_info, hg, hc2,
    low_battery_response]
  by_cases hb : p.battery_low = true <;> simp [hb]

/-- The low-battery part of a tick when the gauge is not healthy: nothing. -/
theorem tick_gauge_bad (p : Power) (i : TickInput) (hg : i.info.gauge_is_ok = false) :
    power_check_low_battery (power_update_info p i.info).2 i.response =
      ({ p with info := i.info }, []) := by
  simp [power_check_low_battery, power_update_info, hg]

/-- A tick never changes the warnings flag. -/
theorem tick_warning_flag (p : Power) (i : TickInput) :
    (power_tick_callback p i).1.show_battery_low_warning = p.show_battery_low_warning := by
  rw [(tick_low_battery_fields p i).2.2]
  simp only [power_check_low_battery, low_battery_entry_check, low_battery_response,
    power_off_countdown, power_update_info]
  cases i.response <;> (repeat' split) <;> rfl

theorem run_ticks_warning_flag (inputs : List TickInput) :
    ∀ p : Power, (run_ticks p inputs).show_battery_low_warning = p.show_battery_low_warning := by
  induction inputs with
  | nil => intro p; rfl
  | cons i rest ih => intro p; rw [run_ticks_cons, ih, tick_warning_flag]

/-- An idle flow stays idle, with its countdown, over ticks on which the gauge
is unhealthy or the entry condition fails. -/
theorem run_ticks_idle (inputs : List TickInput) :
    ∀ p : Power, p.battery_low = false →
      (∀ x ∈ inputs, ¬ (x.info.gauge_is_ok = true ∧ entry_condition p x)) →
      (run_ticks p inputs).battery_low = false ∧
      (run_ticks p inputs).power_off_timeout = p.power_off_timeout := by
  induction inputs with
  | nil => intro p hb _; exact ⟨hb, rfl⟩
  | cons i rest ih =>
    intro p hb hall
    have hi := hall i (List.mem_cons_self i rest)
    obtain ⟨f1, f2, _⟩ := tick_low_battery_fields p i
    have hstep : (power_tick_callback p i).1.battery_low = false ∧
        (power_tick_callback p i).1.power_off_timeout = p.power_off_timeout := by
      rw [f1, f2]
      by_cases hg : i.info.gauge_is_ok = true
      · have hc : ¬ entry_condition p i := fun h => hi ⟨hg, h⟩
        rw [tick_exit p i hg hc]; simp [hb]
      · have hg2 : i.info.gauge_is_ok = false := by simpa using hg
        rw [tick_gauge_bad p i hg2]; exact ⟨hb, rfl⟩
    have hall2 : ∀ x ∈ rest,
        ¬ (x.info.gauge_is_ok = true ∧ entry_condition (power_tick_callback p i).1 x) := by
      intro x hx h
      apply hall x (List.mem_cons_of_mem i hx)
      refine ⟨h.1, h.2.1, h.2.2.1, ?_⟩
      have := h.2.2.2
      rwa [tick_warning_flag] at this
    obtain ⟨r1, r2⟩ := ih (power_tick_callback p i).1 hstep.1 hall2
    rw [run_ticks_cons]
    exact ⟨r1, by rw [r2, hstep.2]⟩


/-- A tick that enters the flow from idle with the countdown at 90: the prompt
is shown, the flag is set, and the response is handled on the full countdown. -/
theorem tick_enter_from_idle (q : Power) (j : TickInput)
    (hb : q.battery_low = false) (ht : q.power_off_timeout = POWER_OFF_TIMEOUT_S)
    (hg : j.info.gauge_is_ok = true) (hc : entry_condition q j) :
    (power_tick_callback q j).1.battery_low = true ∧
    Call.view_holder_set_view (some View.power_off) ∈ (power_tick_callback q j).2 ∧
    (j.response = PowerOffResponse.Default ∨ j.response = PowerOffResponse.Hide →
      Call.power_off_set_time_left 90 ∈ (power_tick_callback q j).2 ∧
      (power_tick_callback q j).1.power_off_timeout = 89) ∧
    (j.response = PowerOffResponse.Ok ∨ j.response = PowerOffResponse.Cancel →
      (power_tick_callback q j).1.power_off_timeout = 90) := by
  obtain ⟨f1, f2, _⟩ := tick_low_battery_fields q j
  have m1 := tick_mem_low_battery_call q j (Call.view_holder_set_view (some View.power_off)) rfl
  have m2 := tick_mem_low_battery_call q j (Call.power_off_set_time_left 90) rfl
  rw [f1, f2, m1, m2, tick_entry q j hg hc]
  have h90 : timeout_post_decrement 90 = 89 := by decide
  refine ⟨?_, ?_, ?_, ?_⟩
  · cases j.response <;>
      simp [low_battery_response, power_off_countdown, ht, POWER_OFF_TIMEOUT_S]
  · simp [hb]
  · rintro (h | h) <;>
      simp [h, low_battery_response, power_off_countdown, ht, POWER_OFF_TIMEOUT_S, h90]
  · rintro (h | h) <;>
      simp [h, low_battery_response, power_off_countdown, ht, POWER_OFF_TIMEOUT_S]

/-- C3 as stated fails: in the active flow reached after 40 countdown ticks
(countdown 50), a tick with a healthy gauge whose response is `Cancel`, the
entry condition still holding, leaves the low-battery flag set; the next
countdown tick neither shows the prompt again nor restarts from 90: it goes on
from 50. -/
theorem cancel_keeps_flow_active :
    (run_ticks (power_srv scenario_info) (List.replicate 40 scenario_tick)).battery_low = true ∧
    (run_ticks (power_srv scenario_info) (List.replicate 40 scenario_tick)).power_off_timeout
      = 50 ∧
    ¬ ((power_tick_callback
        (run_ticks (power_srv scenario_info) (List.replicate 40 scenario_tick))
        cancel_tick).1.battery_low = false) ∧
    Call.view_holder_set_view (some View.power_off) ∉
      (power_tick_callback
        (power_tick_callback
          (run_ticks (power_srv scenario_info) (List.replicate 40 scenario_tick))
          cancel_tick).1 scenario_tick).2 ∧
    Call.power_off_set_time_left 50 ∈
      (power_tick_callback
        (power_tick_callback
          (run_ticks (power_srv scenario_info) (List.replicate 40 scenario_tick))
          cancel_tick).1 scenario_tick).2 := by
  have hall : ∀ x ∈ List.replicate 40 scenario_tick, countdown_tick x := by
    intro x hx
    rw [List.eq_of_mem_replicate hx]; exact scenario_tick_countdown
  obtain ⟨s1, s2, s3⟩ := run_countdown_ticks (List.replicate 40 scenario_tick)
    (power_srv scenario_info) rfl (by decide) hall
  have s3b := s3 (by simp)
  have s2b : (run_ticks (power_srv scenario_info)
      (List.replicate 40 scenario_tick)).power_off_timeout = 50 := by
    rw [s2]; rfl
  generalize run_ticks (power_srv scenario_info) (List.replicate 40 scenario_tick) = p
    at s1 s2b s3b ⊢
  have hv : scenario_info.voltage_vbus < POWER_VBUS_LOW_THRESHOLD := by
    norm_num [scenario_info, POWER_VBUS_LOW_THRESHOLD]
  have hc : entry_condition p cancel_tick := ⟨rfl, hv, s1⟩
  obtain ⟨f1, f2, f3⟩ := tick_low_battery_fields p cancel_tick
  rw [tick_entry p cancel_tick rfl hc] at f1 f2 f3
  have e1 : (power_tick_callback p cancel_tick).1.battery_low = true := by
    rw [f2]; simp [low_battery_response, cancel_tick]
  have e2 : (power_tick_callback p cancel_tick).1.power_off_timeout = 50 := by
    rw [f1]; simp [low_battery_response, cancel_tick, s2b]
  have e3 : (power_tick_callback p cancel_tick).1.show_battery_low_warning = true := by
    rw [tick_warning_flag]; exact s1
  obtain ⟨_, _, _, g4⟩ := countdown_tick_step (power_tick_callback p cancel_tick).1 scenario_tick
    e3 scenario_tick_countdown
  refine ⟨s3b, s2b, by simp [e1], ?_, ?_⟩
  · intro hmem
    have := List.mem_filter.2 ⟨hmem, (rfl : low_battery_call
      (Call.view_holder_set_view (some View.power_off)) = true)⟩
    rw [g4] at this
    simp [e1, e2] at this
  · have : Call.power_off_set_time_left 50 ∈ List.filter low_battery_call
        (power_tick_callback (power_tick_callback p cancel_tick).1 scenario_tick).2 := by
      rw [g4]; simp [e1, e2]
    exact (List.mem_filter.1 this).1


/-- C3, amended.  In an active flow, a tick with a healthy gauge whose response
is `Cancel` requests no shutdown and hides the prompt.  If the entry condition
still holds on that tick the flow stays active (flag set, countdown unchanged).
If it does not hold, the flow becomes idle with the countdown reset to 90, and
after any further ticks on which the gauge is unhealthy or the entry condition
fails, the next tick with a healthy gauge on which it holds sets the flag, shows
the prompt and handles its response on the full countdown: time left 90 shown
and 89 stored for `Default` and `Hide`, 90 stored for `Ok` and `Cancel`. -/
theorem cancel_response (p : Power) (i : TickInput)
    (h_active : p.battery_low = true) (hg : i.info.gauge_is_ok = true)
    (hr : i.response = PowerOffResponse.Cancel) :
    Call.power_off ∉ (power_tick_callback p i).2 ∧
    Call.view_holder_set_view none ∈ (power_tick_callback p i).2 ∧
    (entry_condition p i →
      (power_tick_callback p i).1.battery_low = true ∧
      (power_tick_callback p i).1.power_off_timeout = p.power_off_timeout) ∧
    (¬ entry_condition p i →
      (power_tick_callback p i).1.battery_low = false ∧
      (power_tick_callback p i).1.power_off_timeout = POWER_OFF_TIMEOUT_S ∧
      ∀ (mid : List TickInput) (j : TickInput),
        (∀ x ∈ mid, ¬ (x.info.gauge_is_ok = true ∧ entry_condition p x)) →
        j.info.gauge_is_ok = true → entry_condition p j →
        (power_tick_callback (run_ticks (power_tick_callback p i).1 mid) j).1.battery_low = true ∧
        Call.view_holder_set_view (some View.power_off) ∈
          (power_tick_callback (run_ticks (power_tick_callback p i).1 mid) j).2 ∧
        (j.response = PowerOffResponse.Default ∨ j.response = PowerOffResponse.Hide →
          Call.power_off_set_time_left 90 ∈
            (power_tick_callback (run_ticks (power_tick_callback p i).1 mid) j).2 ∧
          (power_tick_callback (run_ticks (power_tick_callback p i).1 mid) j).1.power_off_timeout
            = 89) ∧
        (j.response = PowerOffResponse.Ok ∨ j.response = PowerOffResponse.Cancel →
          (power_tick_callback (run_ticks (power_tick_callback p i).1 mid) j).1.power_off_timeout
            = 90)) := by
  obtain ⟨f1, f2, _⟩ := tick_low_battery_fields p i
  have m1 := tick_mem_low_battery_call p i Call.power_off rfl
  have m2 := tick_mem_low_battery_call p i (Call.view_holder_set_view none) rfl
  rw [f1, f2, m1, m2]
  by_cases hc : entry_condition p i
  · rw [tick_entry p i hg hc]
    simp [hr, low_battery_response, h_active, hc]
  · rw [tick_exit p i hg hc]
    simp only [h_active, if_true, hc, false_implies, not_false_eq_true, true_implies, true_and]
    refine ⟨by simp, by simp, ?_⟩
    intro mid j hmid hgj hcj
    have hq : (power_tick_callback p i).1.battery_low = false ∧
        (power_tick_callback p i).1.power_off_timeout = POWER_OFF_TIMEOUT_S := by
      rw [f1, f2, tick_exit p i hg hc]; simp [h_active]
    have hwq : (power_tick_callback p i).1.show_battery_low_warning =
        p.show_battery_low_warning := tick_warning_flag p i
    have hmid2 : ∀ x ∈ mid,
        ¬ (x.info.gauge_is_ok = true ∧ entry_condition (power_tick_callback p i).1 x) := by
      intro x hx h
      exact hmid x hx ⟨h.1, h.2.1, h.2.2.1, by rw [← hwq]; exact h.2.2.2⟩
    obtain ⟨r1, r2⟩ := run_ticks_idle mid (power_tick_callback p i).1 hq.1 hmid2
    have hcj2 : entry_condition (run_ticks (power_tick_callback p i).1 mid) j :=
      ⟨hcj.1, hcj.2.1, by rw [run_ticks_warning_flag, hwq]; exact hcj.2.2⟩
    exact tick_enter_from_idle _ j r1 (by rw [r2]; exact hq.2) hgj hcj2

/-- Witness of C3 (amended): the active flow with countdown 50, a `Cancel`
tick with USB power plugged in, then a scenario tick. -/
theorem cancel_response_witness :
    active_power.battery_low = true ∧
    ¬ entry_condition active_power plugged_cancel_tick ∧
    (power_tick_callback active_power plugged_cancel_tick).1.battery_low = false ∧
    (power_tick_callback active_power plugged_cancel_tick).1.power_off_timeout = 90 ∧
    Call.power_off_set_time_left 90 ∈
      (power_tick_callback
        (run_ticks (power_tick_callback active_power plugged_cancel_tick).1 [])
        scenario_tick).2 := by
  have hn : ¬ entry_condition active_power plugged_cancel_tick := by
    intro h
    have h2 := h.2.1
    norm_num [plugged_cancel_tick, plugged_info, POWER_VBUS_LOW_THRESHOLD] at h2
  have hs : entry_condition active_power scenario_tick :=
    ⟨rfl, scenario_tick_countdown.2.2.1, rfl⟩
  have h := cancel_response active_power plugged_cancel_tick rfl rfl rfl
  have h2 := h.2.2.2 hn
  exact ⟨rfl, hn, h2.1, h2.2.1, ((h2.2.2 [] scenario_tick (by simp) rfl hs).2.2.1 (Or.inl rfl)).1⟩


/-! ## Lemmas on the charging-state check -/

/-- What `power_check_charging_state` does, in terms of the state the reading
maps to: nothing when the stored state is that state, else the entry into it. -/
theorem check_charging_state_eq (p : Power) (is_charging is_charging_done : Bool) :
    power_check_charging_state p is_charging is_charging_done =
      (if p.state = charge_state_of_reading is_charging p.info.charge is_charging_done then
        (p, [])
       else
        charge_state_entry p
          (charge_state_of_reading is_charging p.info.charge is_charging_done)) := by
  unfold power_check_charging_state charge_state_of_reading charge_state_entry
  cases is_charging <;> by_cases h : (p.info.charge = 100 ∨ is_charging_done = true) <;>
    cases hs : p.state <;> simp [h, entry_event, entry_sequence]

/-- The low-battery check leaves the charge state and the snapshot alone. -/
theorem check_low_battery_state_info (p : Power) (r : PowerOffResponse) :
    (power_check_low_battery p r).1.state = p.state ∧
    (power_check_low_battery p r).1.info = p.info := by
  simp only [power_check_low_battery, low_battery_entry_check, low_battery_response,
    power_off_countdown]
  cases r <;> (repeat' split) <;> exact ⟨rfl, rfl⟩

theorem entry_event_ne_battery_level (s : PowerState) :
    entry_event s ≠ PowerEventType.BatteryLevelChanged := by
  cases s <;> simp [entry_event]

theorem entry_event_injective (s t : PowerState) (h : entry_event s = entry_event t) : s = t := by
  cases s <;> cases t <;> simp [entry_event] at h ⊢

/-- The low-battery check publishes no event and plays no sequence. -/
theorem check_low_battery_no_events (p : Power) (r : PowerOffResponse) :
    charge_events (power_check_low_battery p r).2 = [] ∧
    played_sequences (power_check_low_battery p r).2 = [] := by
  unfold charge_events played_sequences
  rw [List.filterMap_eq_nil_iff, List.filterMap_eq_nil_iff]
  constructor <;> intro c hc <;> rw [← check_low_battery_calls_filter] at hc <;>
    have := (List.mem_filter.1 hc).2 <;> cases c <;> simp [low_battery_call] at this <;> rfl

/-- The battery-level check keeps the charge state, publishes no charge-state
event and plays no sequence. -/
theorem check_battery_level_frame (p : Power) :
    (power_check_battery_level_change p).1.state = p.state ∧
    charge_events (power_check_battery_level_change p).2 = [] ∧
    played_sequences (power_check_battery_level_change p).2 = [] := by
  unfold power_check_battery_level_change charge_events played_sequences
  split <;> simp [charge_event, played_sequence]

/-- The OTG part of the tick keeps the charge state, publishes no event and
plays no sequence. -/
theorem tick_otg_frame (p : Power) (f : Bool) :
    (power_tick_otg p f).1.state = p.state ∧
    charge_events (power_tick_otg p f).2 = [] ∧
    played_sequences (power_tick_otg p f).2 = [] := by
  by_cases hc : (p.is_otg_requested = true ∧
      (p.info.is_otg_enabled = false ∧ p.info.voltage_vbus < OTG_VBUS_THRESHOLD)) <;>
    cases f <;>
    simp [power_tick_otg, hc, charge_events, played_sequences, charge_event, played_sequence]

theorem charge_state_entry_events (p : Power) (s : PowerState) :
    (charge_state_entry p s).1.state = s ∧
    charge_events (charge_state_entry p s).2 = [entry_event s] ∧
    played_sequences (charge_state_entry p s).2 = [entry_sequence s] := by
  have h := entry_event_ne_battery_level s
  simp [charge_state_entry, charge_events, played_sequences, charge_event, played_sequence, h]

/-- The charge-state part of a tick: the state stored, the charge-state events
published and the sequences played. -/
theorem tick_charging_state (p : Power) (i : TickInput) :
    (power_tick_callback p i).1.state =
      charge_state_of_reading i.is_charging i.info.charge i.is_charging_done ∧
    charge_events (power_tick_callback p i).2 =
      (if p.state = charge_state_of_reading i.is_charging i.info.charge i.is_charging_done
        then []
        else [entry_event
          (charge_state_of_reading i.is_charging i.info.charge i.is_charging_done)]) ∧
    played_sequences (power_tick_callback p i).2 =
      (if p.state = charge_state_of_reading i.is_charging i.info.charge i.is_charging_done
        then []
        else [entry_sequence
          (charge_state_of_reading i.is_charging i.info.charge i.is_charging_done)]) := by
  obtain ⟨hs, hi⟩ := check_low_battery_state_info (power_update_info p i.info).2 i.response
  have hs2 : (power_check_low_battery (power_update_info p i.info).2 i.response).1.state
      = p.state := hs
  have hi2 : (power_check_low_battery (power_update_info p i.info).2 i.response).1.info
      = i.info := hi
  obtain ⟨l1, l2⟩ := check_low_battery_no_events (power_update_info p i.info).2 i.response
  have hcalls : (power_tick_callback p i).2 =
      (power_check_low_battery (power_update_info p i.info).2 i.response).2 ++
      (power_check_charging_state
        (power_check_low_battery (power_update_info p i.info).2 i.response).1
        i.is_charging i.is_charging_done).2 ++
      (power_check_battery_level_change (power_check_charging_state
        (power_check_low_battery (power_update_info p i.info).2 i.response).1
        i.is_charging i.is_charging_done).1).2 ++
      (if (power_update_info p i.info).1 = true then [Call.view_port_update] else []) ++
      (power_tick_otg (power_check_battery_level_change (power_check_charging_state
        (power_check_low_battery (power_update_info p i.info).2 i.response).1
        i.is_charging i.is_charging_done).1).1 i.otg_fault).2 := rfl
  have hstate : (power_tick_callback p i).1.state =
      (power_check_charging_state
        (power_check_low_battery (power_update_info p i.info).2 i.response).1
        i.is_charging i.is_charging_done).1.state := by
    show (power_tick_otg (power_check_battery_level_change (power_check_charging_state
        (power_check_low_battery (power_update_info p i.info).2 i.response).1
        i.is_charging i.is_charging_done).1).1 i.otg_fault).1.state = _
    rw [(tick_otg_frame _ _).1, (check_battery_level_frame _).1]
  have hredraw : ∀ b : Bool,
      charge_events (if b = true then [Call.view_port_update] else []) = [] ∧
      played_sequences (if b = true then [Call.view_port_update] else []) = [] := by
    intro b; cases b <;> simp [charge_events, played_sequences, charge_event, played_sequence]
  have happ1 : ∀ a b : List Call, charge_events (a ++ b) = charge_events a ++ charge_events b :=
    fun a b => List.filterMap_append a b charge_event
  have happ2 : ∀ a b : List Call,
      played_sequences (a ++ b) = played_sequences a ++ played_sequences b :=
    fun a b => List.filterMap_append a b played_sequence
  rw [hstate, hcalls]
  simp only [happ1, happ2, l1, l2, (check_battery_level_frame _).2.1,
    (check_battery_level_frame _).2.2, (tick_otg_frame _ _).2.1, (tick_otg_frame _ _).2.2,
    (hredraw _).1, (hredraw _).2, List.append_nil, List.nil_append]
  rw [check_charging_state_eq, hs2, hi2]
  by_cases h : p.state = charge_state_of_reading i.is_charging i.info.charge i.is_charging_done
  · simp only [h, if_true]
    refine ⟨?_, ?_, ?_⟩
    · rw [hs2]; exact h
    · rfl
    · rfl
  · simp only [h, if_false]
    exact charge_state_entry_events _ _


/-- Over a run of ticks, the charge-state events form a chain of pairwise
different neighbours that starts off the entry event of the stored state. -/
theorem charge_events_chain (inputs : List TickInput) :
    ∀ p : Power, List.Chain (fun a b => a ≠ b) (entry_event p.state)
      (charge_events (run_ticks_calls p inputs)) := by
  induction inputs with
  | nil => intro p; exact List.Chain.nil
  | cons i rest ih =>
    intro p
    obtain ⟨h1, h2, _⟩ := tick_charging_state p i
    have happ : charge_events (run_ticks_calls p (i :: rest)) =
        charge_events (power_tick_callback p i).2 ++
          charge_events (run_ticks_calls (power_tick_callback p i).1 rest) :=
      List.filterMap_append _ _ charge_event
    have hrest := ih (power_tick_callback p i).1
    rw [happ, h2]
    rw [h1] at hrest
    by_cases h : p.state = charge_state_of_reading i.is_charging i.info.charge i.is_charging_done
    · simp only [h, if_true, List.nil_append]
      exact hrest
    · simp only [h, if_false, List.singleton_append]
      exact List.Chain.cons (fun he => h (entry_event_injective _ _ he)) hrest

/-- C4. For every controller state (so every starting ChargeState) and every
sequence of ticks, the charge-state events published (StartCharging,
StopCharging, FullyCharged; BatteryLevelChanged left out) contain no two
adjacent equal events; and a tick whose readings used by
`power_check_charging_state` (its charging flag, the charge, charger-done)
equal those of the tick before it publishes no charge-state event and plays no
notification sequence. -/
theorem charge_events_no_repeat (p : Power) (inputs : List TickInput) (i1 i2 : TickInput) :
    List.Chain' (fun a b => a ≠ b) (charge_events (run_ticks_calls p inputs)) ∧
    (i2.is_charging = i1.is_charging → i2.info.charge = i1.info.charge →
      i2.is_charging_done = i1.is_charging_done →
      charge_events (power_tick_callback (power_tick_callback p i1).1 i2).2 = [] ∧
      played_sequences (power_tick_callback (power_tick_callback p i1).1 i2).2 = []) := by
  constructor
  · have h : List.Chain' (fun a b => a ≠ b)
        (entry_event p.state :: charge_events (run_ticks_calls p inputs)) :=
      charge_events_chain inputs p
    exact h.tail
  · intro e1 e2 e3
    obtain ⟨h1, _, _⟩ := tick_charging_state p i1
    obtain ⟨_, h2, h3⟩ := tick_charging_state (power_tick_callback p i1).1 i2
    rw [h2, h3, h1, e1, e2, e3]
    simp

/-- Witness of C4: two equal charging ticks after start-up; the first
publishes StartCharging, the second publishes and plays nothing. -/
theorem charge_events_no_repeat_witness :
    charge_events (power_tick_callback (power_srv scenario_info) charging_tick).2 =
      [PowerEventType.StartCharging] ∧
    charge_events (power_tick_callback
      (power_tick_callback (power_srv scenario_info) charging_tick).1 charging_tick).2 = [] ∧
    played_sequences (power_tick_callback
      (power_tick_callback (power_srv scenario_info) charging_tick).1 charging_tick).2 = [] := by
  have h := (charge_events_no_repeat (power_srv scenario_info) [] charging_tick charging_tick).2
    rfl rfl rfl
  refine ⟨?_, h.1, h.2⟩
  rw [(tick_charging_state (power_srv scenario_info) charging_tick).2.1]
  decide

/-- C5. `power_check_charging_state`, for every prior state and reading: the
stored state becomes Charged when charging and (charge is 100 or the charger
reports done), Charging when charging and neither, NotCharging when not
charging.  If that state differs from the prior one the calls are exactly one
notification of the matching sequence followed by one publication of the
matching event; if it equals the prior one there is no call and the controller
record is unchanged. -/
theorem check_charging_state_spec (p : Power) (is_charging is_charging_done : Bool) :
    (is_charging = true → (p.info.charge = 100 ∨ is_charging_done = true) →
      (power_check_charging_state p is_charging is_charging_done).1.state
        = PowerState.Charged) ∧
    (is_charging = true → ¬ (p.info.charge = 100 ∨ is_charging_done = true) →
      (power_check_charging_state p is_charging is_charging_done).1.state
        = PowerState.Charging) ∧
    (is_charging = false →
      (power_check_charging_state p is_charging is_charging_done).1.state
        = PowerState.NotCharging) ∧
    ((power_check_charging_state p is_charging is_charging_done).1.state ≠ p.state →
      ((power_check_charging_state p is_charging is_charging_done).1.state
          = PowerState.Charged →
        (power_check_charging_state p is_charging is_charging_done).2 =
          [Call.notification_internal_message Sequence.sequence_charged,
           Call.furi_pubsub_publish { p.event with type := PowerEventType.FullyCharged }]) ∧
      ((power_check_charging_state p is_charging is_charging_done).1.state
          = PowerState.Charging →
        (power_check_charging_state p is_charging is_charging_done).2 =
          [Call.notification_internal_message Sequence.sequence_charging,
           Call.furi_pubsub_publish { p.event with type := PowerEventType.StartCharging }]) ∧
      ((power_check_charging_state p is_charging is_charging_done).1.state
          = PowerState.NotCharging →
        (power_check_charging_state p is_charging is_charging_done).2 =
          [Call.notification_internal_message Sequence.sequence_not_charging,
           Call.furi_pubsub_publish { p.event with type := PowerEventType.StopCharging }])) ∧
    ((power_check_charging_state p is_charging is_charging_done).1.state = p.state →
      (power_check_charging_state p is_charging is_charging_done).2 = [] ∧
      (power_check_charging_state p is_charging is_charging_done).1 = p) := by
  unfold power_check_charging_state
  cases is_charging <;> by_cases h : (p.info.charge = 100 ∨ is_charging_done = true) <;>
    cases hs : p.state <;> simp [h, hs]

/-- Witness of C5: from the start-up state (NotCharging, charge 10), a reading
"charging, charger not done" stores Charging, plays the charging sequence and
publishes StartCharging. -/
theorem check_charging_state_spec_witness :
    (power_check_charging_state (power_srv scenario_info) true false).1.state
      = PowerState.Charging ∧
    (power_check_charging_state (power_srv scenario_info) true false).2 =
      [Call.notification_internal_message Sequence.sequence_charging,
       Call.furi_pubsub_publish
         { (power_srv scenario_info).event with type := PowerEventType.StartCharging }] := by
  have h := check_charging_state_spec (power_srv scenario_info) true false
  have hn : ¬ ((power_srv scenario_info).info.charge = 100 ∨ false = true) := by decide
  have hst := h.2.1 rfl hn
  refine ⟨hst, ?_⟩
  exact (h.2.2.2.1 (by rw [hst]; decide)).2.1 hst


/-! ## Lemmas on the battery-level check -/

/-- The low-battery check leaves the last published level alone and publishes
no level. -/
theorem check_low_battery_level_frame (p : Power) (r : PowerOffResponse) :
    (power_check_low_battery p r).1.battery_level = p.battery_level ∧
    level_events (power_check_low_battery p r).2 = [] := by
  constructor
  · simp only [power_check_low_battery, low_battery_entry_check, low_battery_response,
      power_off_countdown]
    cases r <;> (repeat' split) <;> rfl
  · unfold level_events
    rw [List.filterMap_eq_nil_iff]
    intro c hc
    rw [← check_low_battery_calls_filter] at hc
    have := (List.mem_filter.1 hc).2
    cases c <;> simp [low_battery_call] at this <;> rfl

/-- The charging-state check leaves the last published level and the snapshot
alone and publishes no level. -/
theorem check_charging_state_level_frame (p : Power) (c d : Bool) :
    (power_check_charging_state p c d).1.battery_level = p.battery_level ∧
    (power_check_charging_state p c d).1.info = p.info ∧
    level_events (power_check_charging_state p c d).2 = [] := by
  rw [check_charging_state_eq]
  have h := entry_event_ne_battery_level (charge_state_of_reading c p.info.charge d)
  split <;> simp [charge_state_entry, level_events, level_event, h]

/-- The OTG part of the tick leaves the last published level alone and
publishes no level. -/
theorem tick_otg_level_frame (p : Power) (f : Bool) :
    (power_tick_otg p f).1.battery_level = p.battery_level ∧
    level_events (power_tick_otg p f).2 = [] := by
  by_cases hc : (p.is_otg_requested = true ∧
      (p.info.is_otg_enabled = false ∧ p.info.voltage_vbus < OTG_VBUS_THRESHOLD)) <;>
    cases f <;>
    simp [power_tick_otg, hc, level_events, level_event]

/-- The battery-level check in terms of published levels. -/
theorem check_battery_level_events (p : Power) :
    (power_check_battery_level_change p).1.battery_level = p.info.charge ∧
    level_events (power_check_battery_level_change p).2 =
      (if p.battery_level ≠ p.info.charge then [p.info.charge] else []) := by
  unfold power_check_battery_level_change level_events
  by_cases h : p.battery_level = p.info.charge <;> simp [h, level_event]

/-- The calls of a tick, handler by handler. -/
theorem tick_calls_eq (p : Power) (i : TickInput) :
    (power_tick_callback p i).2 =
      (power_check_low_battery (power_update_info p i.info).2 i.response).2 ++
      (power_check_charging_state
        (power_check_low_battery (power_update_info p i.info).2 i.response).1
        i.is_charging i.is_charging_done).2 ++
      (power_check_battery_level_change (power_check_charging_state
        (power_check_low_battery (power_update_info p i.info).2 i.response).1
        i.is_charging i.is_charging_done).1).2 ++
      (if (power_update_info p i.info).1 = true then [Call.view_port_update] else []) ++
      (power_tick_otg (power_check_battery_level_change (power_check_charging_state
        (power_check_low_battery (power_update_info p i.info).2 i.response).1
        i.is_charging i.is_charging_done).1).1 i.otg_fault).2 := rfl

/-- The battery-level part of a tick: the level stored and the levels
published. -/
theorem tick_battery_level (p : Power) (i : TickInput) :
    (power_tick_callback p i).1.battery_level = i.info.charge ∧
    level_events (power_tick_callback p i).2 =
      (if p.battery_level ≠ i.info.charge then [i.info.charge] else []) := by
  obtain ⟨_, hi⟩ := check_low_battery_state_info (power_update_info p i.info).2 i.response
  have hi2 : (power_check_low_battery (power_update_info p i.info).2 i.response).1.info
      = i.info := hi
  obtain ⟨b1, l1⟩ := check_low_battery_level_frame (power_update_info p i.info).2 i.response
  have b1' : (power_check_low_battery (power_update_info p i.info).2 i.response).1.battery_level
      = p.battery_level := b1
  obtain ⟨b2, i2, l2⟩ := check_charging_state_level_frame
    (power_check_low_battery (power_update_info p i.info).2 i.response).1
    i.is_charging i.is_charging_done
  obtain ⟨b3, l3⟩ := check_battery_level_events (power_check_charging_state
    (power_check_low_battery (power_update_info p i.info).2 i.response).1
    i.is_charging i.is_charging_done).1
  obtain ⟨b4, l4⟩ := tick_otg_level_frame (power_check_battery_level_change
    (power_check_charging_state
      (power_check_low_battery (power_update_info p i.info).2 i.response).1
      i.is_charging i.is_charging_done).1).1 i.otg_fault
  have hredraw : ∀ b : Bool,
      level_events (if b = true then [Call.view_port_update] else []) = [] := by
    intro b; cases b <;> simp [level_events, level_event]
  have happ : ∀ a b : List Call, level_events (a ++ b) = level_events a ++ level_events b :=
    fun a b => List.filterMap_append a b level_event
  rw [b2, i2, hi2, b1'] at l3
  rw [i2, hi2] at b3
  constructor
  · show (power_tick_otg _ _).1.battery_level = _
    rw [b4, b3]
  · rw [tick_calls_eq, happ, happ, happ, happ, l1, l2, l3, l4, hredraw]
    simp


/-- C6 as stated fails on the first tick after start-up: the first tick's
sample differs from the start-up sample only in voltages, a current and a
temperature (same charge 10, same flags, health and capacities), and the tick
still publishes `BatteryLevelChanged(10)`, because the last published level
starts at 0, not at the charge of the start-up sample. -/
theorem first_tick_publishes_unchanged_level :
    voltage_only_tick.info.charge = (power_srv scenario_info).info.charge ∧
    voltage_only_tick.info.is_charging = (power_srv scenario_info).info.is_charging ∧
    voltage_only_tick.info.gauge_is_ok = (power_srv scenario_info).info.gauge_is_ok ∧
    voltage_only_tick.info.is_shutdown_requested =
      (power_srv scenario_info).info.is_shutdown_requested ∧
    voltage_only_tick.info.is_otg_enabled = (power_srv scenario_info).info.is_otg_enabled ∧
    voltage_only_tick.info.health = (power_srv scenario_info).info.health ∧
    voltage_only_tick.info.capacity_remaining =
      (power_srv scenario_info).info.capacity_remaining ∧
    voltage_only_tick.info.capacity_full = (power_srv scenario_info).info.capacity_full ∧
    level_events (power_tick_callback (power_srv scenario_info) voltage_only_tick).2 = [10] ∧
    ¬ (level_events (power_tick_callback (power_srv scenario_info) voltage_only_tick).2 = []) := by
  have h := (tick_battery_level (power_srv scenario_info) voltage_only_tick).2
  have h10 : level_events (power_tick_callback (power_srv scenario_info) voltage_only_tick).2
      = [10] := by
    rw [h]; decide
  refine ⟨rfl, rfl, rfl, rfl, rfl, rfl, rfl, rfl, h10, ?_⟩
  rw [h10]; simp

/-- C6, amended.  `power_check_battery_level_change` publishes
`BatteryLevelChanged` exactly when the snapshot's charge differs from the last
published level; the event then carries the new charge, which becomes the last
published level; otherwise it does nothing.  For a whole tick: it publishes
the sampled charge exactly when that differs from the last published level,
whatever else the sample changes, and stores it; so a tick with the same
charge as the tick before it publishes no level.  The last published level
starts at 0: the first tick after start-up publishes its charge unless that
charge is 0, also when it equals the charge of the start-up sample. -/
theorem battery_level_change_spec (p : Power) (i i2 : TickInput) (first_sample : PowerInfo) :
    ((∃ e, Call.furi_pubsub_publish e ∈ (power_check_battery_level_change p).2 ∧
        e.type = PowerEventType.BatteryLevelChanged) ↔ p.info.charge ≠ p.battery_level) ∧
    (p.info.charge ≠ p.battery_level →
      (power_check_battery_level_change p).2 =
        [Call.furi_pubsub_publish
          { type := PowerEventType.BatteryLevelChanged, battery_level := p.info.charge }] ∧
      (power_check_battery_level_change p).1.battery_level = p.info.charge) ∧
    (p.info.charge = p.battery_level →
      (power_check_battery_level_change p).2 = [] ∧
      (power_check_battery_level_change p).1 = p) ∧
    level_events (power_tick_callback p i).2 =
      (if i.info.charge ≠ p.battery_level then [i.info.charge] else []) ∧
    (power_tick_callback p i).1.battery_level = i.info.charge ∧
    (i2.info.charge = i.info.charge →
      level_events (power_tick_callback (power_tick_callback p i).1 i2).2 = []) ∧
    level_events (power_tick_callback (power_srv first_sample) i).2 =
      (if i.info.charge ≠ 0 then [i.info.charge] else []) := by
  obtain ⟨t1, t2⟩ := tick_battery_level p i
  obtain ⟨_, t4⟩ := tick_battery_level (power_tick_callback p i).1 i2
  obtain ⟨_, t6⟩ := tick_battery_level (power_srv first_sample) i
  have hz : (power_srv first_sample).battery_level = 0 := rfl
  refine ⟨?_, ?_, ?_, ?_, t1, ?_, ?_⟩
  · unfold power_check_battery_level_change
    by_cases h : p.battery_level = p.info.charge
    · simp [h]
    · simp [h, Ne.symm h]
  · intro h
    unfold power_check_battery_level_change
    simp [Ne.symm h]
  · intro h
    unfold power_check_battery_level_change
    simp [h]
  · rw [t2]
    by_cases h : p.battery_level = i.info.charge
    · simp [h]
    · simp [h, Ne.symm h]
  · intro h
    rw [t4, t1, h]; simp
  · rw [t6, hz]
    by_cases h : i.info.charge = 0
    · simp [h]
    · simp [h, Ne.symm h]

/-- Witness of C6 (amended): two voltage-only ticks after start-up; the first
publishes level 10, the second publishes none. -/
theorem battery_level_change_spec_witness :
    voltage_only_tick.info.charge = voltage_only_tick.info.charge ∧
    level_events (power_tick_callback (power_srv scenario_info) voltage_only_tick).2 = [10] ∧
    level_events (power_tick_callback
      (power_tick_callback (power_srv scenario_info) voltage_only_tick).1
      voltage_only_tick).2 = [] := by
  have h := battery_level_change_spec (power_srv scenario_info) voltage_only_tick
    voltage_only_tick scenario_info
  refine ⟨rfl, ?_, h.2.2.2.2.2.1 rfl⟩
  rw [h.2.2.2.2.2.2]; decide


/-! ## Lemmas on the OTG enable loop -/

/-- The loop when the call numbered `attempt + k` is the first to succeed
(`k < retries`): `k + 1` calls, and `retries` is left at `retries - 1 - k`. -/
theorem otg_enable_loop_success (enable : Nat → Bool) :
    ∀ (retries attempt k : Nat), k < retries →
      (∀ j, j < k → enable (attempt + j) = false) → enable (attempt + k) = true →
      otg_enable_loop enable retries attempt =
        (retries - 1 - k, List.replicate (k + 1) Call.furi_hal_power_enable_otg) := by
  intro retries
  induction retries with
  | zero => intro attempt k hk; omega
  | succ r ih =>
    intro attempt k hk hfail hsucc
    cases k with
    | zero =>
      have h0 : enable attempt = true := by simpa using hsucc
      simp [otg_enable_loop, h0]
    | succ k =>
      have h0 : enable attempt = false := by simpa using hfail 0 (Nat.succ_pos k)
      have hrec := ih (attempt + 1) k (by omega)
        (fun j hj => by
          have := hfail (j + 1) (by omega)
          rwa [show attempt + (j + 1) = attempt + 1 + j by omega] at this)
        (by rwa [show attempt + (k + 1) = attempt + 1 + k by omega] at hsucc)
      simp only [otg_enable_loop, h0, hrec]
      simp only [Bool.false_eq_true, if_false, List.replicate_succ]
      congr 1
      omega

/-- The loop when every call fails: `retries` calls, and the counter wraps. -/
theorem otg_enable_loop_fail (enable : Nat → Bool) :
    ∀ (retries attempt : Nat), (∀ j, j < retries → enable (attempt + j) = false) →
      otg_enable_loop enable retries attempt =
        (SIZE_MAX, List.replicate retries Call.furi_hal_power_enable_otg) := by
  intro retries
  induction retries with
  | zero => intro attempt _; rfl
  | succ r ih =>
    intro attempt hfail
    have h0 : enable attempt = false := by simpa using hfail 0 (Nat.succ_pos r)
    have hrec := ih (attempt + 1) (fun j hj => by
      have := hfail (j + 1) (by omega)
      rwa [show attempt + (j + 1) = attempt + 1 + j by omega] at this)
    simp only [otg_enable_loop, h0, hrec]
    simp [List.replicate_succ]

/-- The loop makes enable calls only, at most `retries` of them. -/
theorem otg_enable_loop_calls (enable : Nat → Bool) :
    ∀ (retries attempt : Nat), ∃ n, n ≤ retries ∧
      (otg_enable_loop enable retries attempt).2 =
        List.replicate n Call.furi_hal_power_enable_otg := by
  intro retries
  induction retries with
  | zero => intro attempt; exact ⟨0, Nat.le_refl 0, rfl⟩
  | succ r ih =>
    intro attempt
    by_cases h0 : enable attempt = true
    · exact ⟨1, by omega, by simp [otg_enable_loop, h0]⟩
    · obtain ⟨n, hn, hcalls⟩ := ih (attempt + 1)
      refine ⟨n + 1, by omega, ?_⟩
      simp [otg_enable_loop, h0, hcalls, List.replicate_succ]

/-- Enable calls of the `SwitchOTG` handler: those of its loop, if it runs. -/
theorem switch_otg_enable_calls (p : Power) (value : Bool) (lock : Option Nat)
    (enable : Nat → Bool) :
    enable_calls (power_message_callback p (switch_otg_message value lock) enable).calls =
      (if value = true ∧ p.info.voltage_vbus < OTG_VBUS_THRESHOLD then
        enable_calls (otg_enable_loop enable 5 0).2 else 0) ∧
    (power_message_callback p (switch_otg_message value lock) enable).power =
      { p with is_otg_requested := value } ∧
    (power_message_callback p (switch_otg_message value lock) enable).exit = Exit.returned := by
  have hu : enable_calls (message_unlock lock) = 0 := by
    cases lock <;> simp [message_unlock, enable_calls]
  have hu2 : List.count Call.furi_hal_power_enable_otg (message_unlock lock) = 0 := hu
  have happ : ∀ a b : List Call, enable_calls (a ++ b) = enable_calls a + enable_calls b :=
    fun a b => List.count_append _ a b
  refine ⟨?_, ?_, rfl⟩
  · simp only [power_message_callback, switch_otg_message, power_switch_otg]
    cases value
    · simp [happ, hu2, enable_calls]
    · by_cases hv : p.info.voltage_vbus < OTG_VBUS_THRESHOLD
      · simp only [hv, if_true, and_self, happ, hu]
        split <;> simp [enable_calls]
      · simp [hv, happ, hu2, enable_calls]
  · simp only [power_message_callback, switch_otg_message, power_switch_otg]
    cases value
    · simp
    · by_cases hv : p.info.voltage_vbus < OTG_VBUS_THRESHOLD <;> simp [hv]

/-- C7. Handling `SetOtgEnabled(true)`, for every controller state, handle and
outcomes of the enable primitive: with the stored VBUS at 4.5 V or more the
handler makes no enable call; with VBUS below 4.5 V it makes at most 5, stops
right after the first call that succeeds (`k + 1` calls when call `k`, counted
from 0, is the first success) and makes exactly 5 when all five fail; in every
case it returns with the OTG-requested flag set to true. -/
theorem set_otg_enabled_calls (p : Power) (lock : Option Nat) (enable : Nat → Bool) :
    (OTG_VBUS_THRESHOLD ≤ p.info.voltage_vbus →
      enable_calls (power_message_callback p (switch_otg_message true lock) enable).calls = 0) ∧
    (p.info.voltage_vbus < OTG_VBUS_THRESHOLD →
      enable_calls (power_message_callback p (switch_otg_message true lock) enable).calls ≤ 5 ∧
      (∀ k, k < 5 → (∀ j, j < k → enable j = false) → enable k = true →
        enable_calls (power_message_callback p (switch_otg_message true lock) enable).calls
          = k + 1) ∧
      ((∀ j, j < 5 → enable j = false) →
        enable_calls (power_message_callback p (switch_otg_message true lock) enable).calls
          = 5)) ∧
    (power_message_callback p (switch_otg_message true lock) enable).power.is_otg_requested
      = true ∧
    (power_message_callback p (switch_otg_message true lock) enable).exit = Exit.returned := by
  obtain ⟨h1, h2, h3⟩ := switch_otg_enable_calls p true lock enable
  refine ⟨?_, ?_, by rw [h2], h3⟩
  · intro hv
    rw [h1]
    simp [not_lt.2 hv]
  · intro hv
    rw [h1]
    simp only [hv, and_self, if_true]
    refine ⟨?_, ?_, ?_⟩
    · obtain ⟨n, hn, hcalls⟩ := otg_enable_loop_calls enable 5 0
      rw [hcalls]
      simp [enable_calls, hn]
    · intro k hk hfail hsucc
      rw [otg_enable_loop_success enable 5 0 k hk (by simpa using hfail) (by simpa using hsucc)]
      simp [enable_calls]
    · intro hfail
      rw [otg_enable_loop_fail enable 5 0 (by simpa using hfail)]
      simp [enable_calls]

/-- Witness of C7: VBUS 3.5 V, the third enable call is the first to succeed;
the handler makes exactly three enable calls. -/
theorem set_otg_enabled_calls_witness :
    (power_srv scenario_info).info.voltage_vbus < OTG_VBUS_THRESHOLD ∧
    enable_calls (power_message_callback (power_srv scenario_info)
      (switch_otg_message true (some 1)) third_call_succeeds).calls = 3 := by
  have hv : (power_srv scenario_info).info.voltage_vbus < OTG_VBUS_THRESHOLD := by
    show scenario_info.voltage_vbus < OTG_VBUS_THRESHOLD
    norm_num [scenario_info, OTG_VBUS_THRESHOLD]
  refine ⟨hv, ?_⟩
  exact ((set_otg_enabled_calls (power_srv scenario_info) (some 1) third_call_succeeds).2.1 hv).2.1
    2 (by decide) (by decide) (by decide)


/-! ## Lemmas on the message handlers -/

theorem unlock_calls_message_unlock (lock : Option Nat) :
    unlock_calls (message_unlock lock) = lock.toList := by
  cases lock <;> rfl

/-- The `SwitchOTG` case signals no handle by itself. -/
theorem switch_otg_no_unlock (p : Power) (value : Bool) (enable : Nat → Bool) :
    unlock_calls (power_switch_otg p value enable).2 = [] := by
  obtain ⟨n, _, hcalls⟩ := otg_enable_loop_calls enable 5 0
  have hrep : unlock_calls (List.replicate n Call.furi_hal_power_enable_otg) = [] := by
    unfold unlock_calls
    rw [List.filterMap_eq_nil_iff]
    intro c hc
    rw [List.eq_of_mem_replicate hc]; rfl
  have happ : ∀ a b : List Call, unlock_calls (a ++ b) = unlock_calls a ++ unlock_calls b :=
    fun a b => List.filterMap_append a b unlock_call
  unfold power_switch_otg
  cases value
  · simp [unlock_calls, unlock_call]
  · by_cases hv : p.info.voltage_vbus < OTG_VBUS_THRESHOLD
    · simp only [hv, if_true, happ, hcalls, hrep]
      split <;> simp [unlock_calls, unlock_call]
    · simp [hv, unlock_calls, unlock_call]

/-- The `SwitchOTG` case stores the requested flag and nothing else. -/
theorem switch_otg_power (p : Power) (value : Bool) (enable : Nat → Bool) :
    (power_switch_otg p value enable).1 = { p with is_otg_requested := value } := by
  unfold power_switch_otg
  cases value
  · simp
  · by_cases hv : p.info.voltage_vbus < OTG_VBUS_THRESHOLD <;> simp [hv]

theorem message_shutdown (p : Power) (msg : PowerMessage) (enable : Nat → Bool)
    (h : msg.type = PowerMessageType.Shutdown) :
    power_message_callback p msg enable =
      { power := p, calls := power_handle_shutdown, exit := Exit.halted } := by
  simp only [power_message_callback, h]

theorem message_reboot (p : Power) (msg : PowerMessage) (enable : Nat → Bool)
    (h : msg.type = PowerMessageType.Reboot) :
    power_message_callback p msg enable =
      { power := p, calls := (power_handle_reboot msg.boot_mode).1,
        exit := (power_handle_reboot msg.boot_mode).2 } := by
  simp only [power_message_callback, h]

theorem message_get_info (p : Power) (msg : PowerMessage) (enable : Nat → Bool)
    (h : msg.type = PowerMessageType.GetInfo) :
    power_message_callback p msg enable =
      { power := p, calls := Call.store_power_info p.info :: message_unlock msg.lock,
        exit := Exit.returned } := by
  simp only [power_message_callback, h]

theorem message_is_battery_healthy (p : Power) (msg : PowerMessage) (enable : Nat → Bool)
    (h : msg.type = PowerMessageType.IsBatteryHealthy) :
    power_message_callback p msg enable =
      { power := p,
        calls := Call.store_bool (decide (POWER_HEALTH_LOW_THRESHOLD < p.info.health))
          :: message_unlock msg.lock,
        exit := Exit.returned } := by
  simp only [power_message_callback, h]

theorem message_show_battery_low_warning (p : Power) (msg : PowerMessage)
    (enable : Nat → Bool) (h : msg.type = PowerMessageType.ShowBatteryLowWarning) :
    power_message_callback p msg enable =
      { power := { p with show_battery_low_warning := msg.bool_param },
        calls := message_unlock msg.lock, exit := Exit.returned } := by
  simp only [power_message_callback, h]

theorem message_switch_otg (p : Power) (msg : PowerMessage) (enable : Nat → Bool)
    (h : msg.type = PowerMessageType.SwitchOTG) :
    power_message_callback p msg enable =
      { power := (power_switch_otg p msg.bool_param enable).1,
        calls := (power_switch_otg p msg.bool_param enable).2 ++ message_unlock msg.lock,
        exit := Exit.returned } := by
  simp only [power_message_callback, h]

/-- A handler leaves the snapshot as it found it. -/
theorem message_keeps_info (p : Power) (msg : PowerMessage) (enable : Nat → Bool) :
    (power_message_callback p msg enable).power.info = p.info := by
  unfold power_message_callback
  cases hmt : msg.type <;> simp only []
  rw [switch_otg_power]

/-- A tick stores its sample as the snapshot. -/
theorem tick_info (p : Power) (i : TickInput) : (power_tick_callback p i).1.info = i.info := by
  obtain ⟨_, hi⟩ := check_low_battery_state_info (power_update_info p i.info).2 i.response
  obtain ⟨_, i2, _⟩ := check_charging_state_level_frame
    (power_check_low_battery (power_update_info p i.info).2 i.response).1
    i.is_charging i.is_charging_done
  have h4 : ∀ q : Power, (power_check_battery_level_change q).1.info = q.info := by
    intro q; unfold power_check_battery_level_change; split <;> rfl
  have h6 : ∀ (q : Power) (f : Bool), (power_tick_otg q f).1.info = q.info := by
    intro q f; unfold power_tick_otg; cases f <;> rfl
  show (power_tick_otg _ _).1.info = _
  rw [h6, h4, i2, hi]
  rfl

/-- While the loop keeps returning, the stored snapshot is the latest sample. -/
theorem event_loop_info (evs : List LoopEvent) :
    ∀ p : Power, (furi_event_loop_run p evs).exit = Exit.returned →
      (furi_event_loop_run p evs).power.info = latest_sample p.info evs := by
  induction evs with
  | nil => intro p _; rfl
  | cons ev rest ih =>
    intro p hret
    have hstep : (loop_step p ev).exit = Exit.returned := by
      by_contra hne
      have : furi_event_loop_run p (ev :: rest) = loop_step p ev := by
        simp only [furi_event_loop_run]
      rw [this] at hret
      exact hne hret
    have hrun : furi_event_loop_run p (ev :: rest) =
        { power := (furi_event_loop_run (loop_step p ev).power rest).power,
          calls := (loop_step p ev).calls ++ (furi_event_loop_run (loop_step p ev).power rest).calls,
          exit := (furi_event_loop_run (loop_step p ev).power rest).exit } := by
      simp only [furi_event_loop_run, hstep]
    rw [hrun] at hret ⊢
    have hrest := ih (loop_step p ev).power hret
    show (furi_event_loop_run (loop_step p ev).power rest).power.info = _
    rw [hrest]
    cases ev with
    | tick input =>
      show latest_sample (power_tick_callback p input).1.info rest = _
      rw [tick_info]; rfl
    | message msg enable =>
      show latest_sample (power_message_callback p msg enable).power.info rest = _
      rw [message_keeps_info]; rfl


/-- C8 as stated fails for `Shutdown` (and `Reboot`): the handler ends in
`furi_halt` before the unlock, so a `Shutdown` carrying handle 7 never
signals it. -/
theorem shutdown_never_signals_handle :
    shutdown_message_with_lock.lock = some 7 ∧
    (power_message_callback (power_srv scenario_info) shutdown_message_with_lock
      enable_always_fails).exit = Exit.halted ∧
    unlock_calls (power_message_callback (power_srv scenario_info) shutdown_message_with_lock
      enable_always_fails).calls = [] ∧
    Call.api_lock_unlock 7 ∉ (power_message_callback (power_srv scenario_info)
      shutdown_message_with_lock enable_always_fails).calls := by
  refine ⟨rfl, rfl, rfl, ?_⟩
  simp [power_message_callback, shutdown_message_with_lock, power_handle_shutdown]

/-- C8, amended.  For `GetInfo`, `IsBatteryHealthy`,
`SetLowBatteryWarningEnabled` and `SetOtgEnabled` (whatever its value, the
stored VBUS and the outcomes of the enable primitive, so on its disable,
postponed, succeeded and all-failed branches) the handler returns and the
handles it signals are exactly the handle the message carries: one signal, as
the last call, when there is a handle, none when there is none.  For `Shutdown`
and `Reboot` the handler does not return and signals no handle. -/
theorem completion_handle_signalled (p : Power) (msg : PowerMessage) (enable : Nat → Bool) :
    ((msg.type = PowerMessageType.GetInfo ∨ msg.type = PowerMessageType.IsBatteryHealthy ∨
        msg.type = PowerMessageType.ShowBatteryLowWarning ∨
        msg.type = PowerMessageType.SwitchOTG) →
      (power_message_callback p msg enable).exit = Exit.returned ∧
      unlock_calls (power_message_callback p msg enable).calls = msg.lock.toList ∧
      (∀ l, msg.lock = some l →
        (power_message_callback p msg enable).calls.getLast? = some (Call.api_lock_unlock l))) ∧
    ((msg.type = PowerMessageType.Shutdown ∨ msg.type = PowerMessageType.Reboot) →
      (power_message_callback p msg enable).exit ≠ Exit.returned ∧
      unlock_calls (power_message_callback p msg enable).calls = []) := by
  have hu := unlock_calls_message_unlock msg.lock
  have happ : ∀ a b : List Call, unlock_calls (a ++ b) = unlock_calls a ++ unlock_calls b :=
    fun a b => List.filterMap_append a b unlock_call
  have hlast : ∀ (l : Nat), message_unlock (some l) = [Call.api_lock_unlock l] := fun _ => rfl
  constructor
  · rintro (h | h | h | h)
    · rw [message_get_info p msg enable h]
      refine ⟨rfl, hu, ?_⟩
      intro l hl; rw [hl]; rfl
    · rw [message_is_battery_healthy p msg enable h]
      refine ⟨rfl, hu, ?_⟩
      intro l hl; rw [hl]; rfl
    · rw [message_show_battery_low_warning p msg enable h]
      refine ⟨rfl, hu, ?_⟩
      intro l hl; rw [hl]; rfl
    · rw [message_switch_otg p msg enable h]
      refine ⟨rfl, ?_, ?_⟩
      · show unlock_calls (_ ++ _) = _
        rw [happ, switch_otg_no_unlock, hu]; rfl
      · intro l hl
        show (_ ++ message_unlock msg.lock).getLast? = _
        rw [hl, hlast, List.getLast?_concat]
  · rintro (h | h)
    · rw [message_shutdown p msg enable h]
      exact ⟨by simp, rfl⟩
    · rw [message_reboot p msg enable h]
      cases msg.boot_mode <;> exact ⟨by simp [power_handle_reboot], rfl⟩

/-- Witness of C8 (amended): a failed `SetOtgEnabled(true)` carrying handle 1
at VBUS 3.5 V returns and signals handle 1 once, as its last call. -/
theorem completion_handle_signalled_witness :
    (switch_otg_message true (some 1)).type = PowerMessageType.SwitchOTG ∧
    unlock_calls (power_message_callback (power_srv scenario_info)
      (switch_otg_message true (some 1)) enable_always_fails).calls = [1] ∧
    (power_message_callback (power_srv scenario_info)
      (switch_otg_message true (some 1)) enable_always_fails).calls.getLast?
        = some (Call.api_lock_unlock 1) := by
  have h := (completion_handle_signalled (power_srv scenario_info)
    (switch_otg_message true (some 1)) enable_always_fails).1 (Or.inr (Or.inr (Or.inr rfl)))
  exact ⟨rfl, h.2.1, h.2.2 1 rfl⟩

/-- C9. For every first sample and every list of wake-ups (ticks and commands
in any order) that the controller has processed and returned from, a `GetInfo`
handled next stores into its output slot the whole snapshot of the most recent
sampling: the sample of the latest tick, or the first sample if no tick has
run.  The stored record is that sample itself, so no field comes from another
sample. -/
theorem get_info_latest_sample (first_sample : PowerInfo) (evs : List LoopEvent)
    (lock : Option Nat) (enable : Nat → Bool)
    (h_running : (furi_event_loop_run (power_srv first_sample) evs).exit = Exit.returned) :
    (power_message_callback (furi_event_loop_run (power_srv first_sample) evs).power
      (get_info_message lock) enable).calls =
        Call.store_power_info (latest_sample first_sample evs) :: message_unlock lock ∧
    (power_message_callback (furi_event_loop_run (power_srv first_sample) evs).power
      (get_info_message lock) enable).power.info = latest_sample first_sample evs := by
  have h := event_loop_info evs (power_srv first_sample) h_running
  have h0 : (power_srv first_sample).info = first_sample := rfl
  rw [h0] at h
  constructor
  · show Call.store_power_info (furi_event_loop_run (power_srv first_sample) evs).power.info
      :: message_unlock lock = _
    rw [h]
  · rw [message_keeps_info, h]

/-- Witness of C9: after a tick, a command and a second tick, `GetInfo` stores
the sample of the second tick. -/
theorem get_info_latest_sample_witness :
    (furi_event_loop_run (power_srv scenario_info) example_wakeups).exit = Exit.returned ∧
    (power_message_callback (furi_event_loop_run (power_srv scenario_info) example_wakeups).power
      (get_info_message (some 3)) enable_always_fails).calls =
        [Call.store_power_info voltage_only_tick.info, Call.api_lock_unlock 3] := by
  have hr : (furi_event_loop_run (power_srv scenario_info) example_wakeups).exit
      = Exit.returned := rfl
  exact ⟨hr, (get_info_latest_sample scenario_info example_wakeups (some 3)
    enable_always_fails hr).1⟩

/-- C10. Handling `IsBatteryHealthy` stores `70 < health` of the stored
snapshot into the output slot (then signals the handle, if any): true exactly
when the health percentage is strictly above 70, so false at 70 and true at
71. -/
theorem is_battery_healthy_threshold (p : Power) (lock : Option Nat) (enable : Nat → Bool) :
    (power_message_callback p (is_battery_healthy_message lock) enable).calls =
      Call.store_bool (decide (70 < p.info.health)) :: message_unlock lock ∧
    (power_message_callback { p with info := { p.info with health := 70 } }
      (is_battery_healthy_message lock) enable).calls =
      Call.store_bool false :: message_unlock lock ∧
    (power_message_callback { p with info := { p.info with health := 71 } }
      (is_battery_healthy_message lock) enable).calls =
      Call.store_bool true :: message_unlock lock := by
  refine ⟨rfl, rfl, rfl⟩

/-! ## Reboot -/

/-- C11. `power_handle_reboot`: for Normal the calls are the disarm of the
pending update then the reset; for Dfu the DFU boot-mode flag then the reset;
for UpdateStart the pre-update boot-mode flag then the reset; in these three
cases the handler ends in the reset and makes no crash call.  For every other
mode value the only call is the crash, the handler ends there and makes no
reset.  A `Reboot` message runs exactly these calls. -/
theorem reboot_prepares_then_resets (raw : Nat) (p : Power) (msg : PowerMessage)
    (enable : Nat → Bool) :
    power_handle_reboot PowerBootMode.Normal =
      ([Call.update_operation_disarm, Call.furi_hal_power_reset], Exit.reset) ∧
    power_handle_reboot PowerBootMode.Dfu =
      ([Call.furi_hal_rtc_set_boot_mode FuriHalRtcBootMode.Dfu, Call.furi_hal_power_reset],
        Exit.reset) ∧
    power_handle_reboot PowerBootMode.UpdateStart =
      ([Call.furi_hal_rtc_set_boot_mode FuriHalRtcBootMode.PreUpdate, Call.furi_hal_power_reset],
        Exit.reset) ∧
    power_handle_reboot (PowerBootMode.Other raw) = ([Call.furi_crash], Exit.crashed) ∧
    Call.furi_hal_power_reset ∉ (power_handle_reboot (PowerBootMode.Other raw)).1 ∧
    Call.furi_crash ∉ (power_handle_reboot PowerBootMode.Normal).1 ∧
    Call.furi_crash ∉ (power_handle_reboot PowerBootMode.Dfu).1 ∧
    Call.furi_crash ∉ (power_handle_reboot PowerBootMode.UpdateStart).1 ∧
    (power_message_callback p { msg with type := PowerMessageType.Reboot } enable).calls =
      (power_handle_reboot msg.boot_mode).1 ∧
    (power_message_callback p { msg with type := PowerMessageType.Reboot } enable).exit =
      (power_handle_reboot msg.boot_mode).2 := by
  refine ⟨rfl, rfl, rfl, rfl, ?_, ?_, ?_, ?_, rfl, rfl⟩ <;> simp [power_handle_reboot]

/-! ## Charging scenario -/

/-- C12. From any controller state whose ChargeState is NotCharging, three
consecutive ticks whose readings are (not charging, charge 50), (charging,
charge 50, charger not done), (charging, charge 100, charger not done): the
first tick publishes no charge-state event and plays nothing; the second
publishes StartCharging, plays the charging sequence and publishes no level;
the third publishes FullyCharged, plays the charged sequence and publishes
`BatteryLevelChanged(100)`.  Over the three ticks the charge-state events are
exactly StartCharging then FullyCharged and the sequences played are exactly
charging then charged. -/
theorem charging_scenario (p : Power) (i1 i2 i3 : TickInput)
    (h0 : p.state = PowerState.NotCharging)
    (h1 : i1.is_charging = false ∧ i1.info.charge = 50)
    (h2 : i2.is_charging = true ∧ i2.info.charge = 50 ∧ i2.is_charging_done = false)
    (h3 : i3.is_charging = true ∧ i3.info.charge = 100 ∧ i3.is_charging_done = false) :
    charge_events (power_tick_callback p i1).2 = [] ∧
    played_sequences (power_tick_callback p i1).2 = [] ∧
    charge_events (power_tick_callback (run_ticks p [i1]) i2).2 =
      [PowerEventType.StartCharging] ∧
    played_sequences (power_tick_callback (run_ticks p [i1]) i2).2 =
      [Sequence.sequence_charging] ∧
    level_events (power_tick_callback (run_ticks p [i1]) i2).2 = [] ∧
    charge_events (power_tick_callback (run_ticks p [i1, i2]) i3).2 =
      [PowerEventType.FullyCharged] ∧
    played_sequences (power_tick_callback (run_ticks p [i1, i2]) i3).2 =
      [Sequence.sequence_charged] ∧
    level_events (power_tick_callback (run_ticks p [i1, i2]) i3).2 = [100] ∧
    charge_events (run_ticks_calls p [i1, i2, i3]) =
      [PowerEventType.StartCharging, PowerEventType.FullyCharged] ∧
    played_sequences (run_ticks_calls p [i1, i2, i3]) =
      [Sequence.sequence_charging, Sequence.sequence_charged] := by
  obtain ⟨a1, a2⟩ := h1
  obtain ⟨b1, b2, b3⟩ := h2
  obtain ⟨c1, c2, c3⟩ := h3
  have r1 : run_ticks p [i1] = (power_tick_callback p i1).1 := rfl
  have r2 : run_ticks p [i1, i2] =
      (power_tick_callback (power_tick_callback p i1).1 i2).1 := rfl
  obtain ⟨s1, e1, q1⟩ := tick_charging_state p i1
  obtain ⟨s2, e2, q2⟩ := tick_charging_state (power_tick_callback p i1).1 i2
  obtain ⟨s3, e3, q3⟩ := tick_charging_state
    (power_tick_callback (power_tick_callback p i1).1 i2).1 i3
  obtain ⟨l1, _⟩ := tick_battery_level p i1
  obtain ⟨l2, m2⟩ := tick_battery_level (power_tick_callback p i1).1 i2
  obtain ⟨_, m3⟩ := tick_battery_level
    (power_tick_callback (power_tick_callback p i1).1 i2).1 i3
  have t1 : charge_state_of_reading i1.is_charging i1.info.charge i1.is_charging_done
      = PowerState.NotCharging := by simp [charge_state_of_reading, a1]
  have t2 : charge_state_of_reading i2.is_charging i2.info.charge i2.is_charging_done
      = PowerState.Charging := by simp [charge_state_of_reading, b1, b2, b3]
  have t3 : charge_state_of_reading i3.is_charging i3.info.charge i3.is_charging_done
      = PowerState.Charged := by simp [charge_state_of_reading, c1, c2]
  rw [t1] at s1 e1 q1
  rw [t2] at s2 e2 q2
  rw [t3] at s3 e3 q3
  rw [h0] at e1 q1
  rw [s1] at e2 q2
  rw [s2] at e3 q3
  rw [l1, a2, b2] at m2
  rw [l2, b2, c2] at m3
  have e1' : charge_events (power_tick_callback p i1).2 = [] := by simpa using e1
  have q1' : played_sequences (power_tick_callback p i1).2 = [] := by simpa using q1
  have e2' : charge_events (power_tick_callback (power_tick_callback p i1).1 i2).2 =
      [PowerEventType.StartCharging] := by simpa [entry_event] using e2
  have q2' : played_sequences (power_tick_callback (power_tick_callback p i1).1 i2).2 =
      [Sequence.sequence_charging] := by simpa [entry_sequence] using q2
  have m2' : level_events (power_tick_callback (power_tick_callback p i1).1 i2).2 = [] := by
    simpa using m2
  have e3' : charge_events
      (power_tick_callback (power_tick_callback (power_tick_callback p i1).1 i2).1 i3).2 =
      [PowerEventType.FullyCharged] := by simpa [entry_event] using e3
  have q3' : played_sequences
      (power_tick_callback (power_tick_callback (power_tick_callback p i1).1 i2).1 i3).2 =
      [Sequence.sequence_charged] := by simpa [entry_sequence] using q3
  have m3' : level_events
      (power_tick_callback (power_tick_callback (power_tick_callback p i1).1 i2).1 i3).2 =
      [100] := by simpa using m3
  have hcalls : run_ticks_calls p [i1, i2, i3] =
      (power_tick_callback p i1).2 ++
        ((power_tick_callback (power_tick_callback p i1).1 i2).2 ++
          ((power_tick_callback
            (power_tick_callback (power_tick_callback p i1).1 i2).1 i3).2 ++ [])) := rfl
  have happ1 : ∀ a b : List Call, charge_events (a ++ b) = charge_events a ++ charge_events b :=
    fun a b => List.filterMap_append a b charge_event
  have happ2 : ∀ a b : List Call,
      played_sequences (a ++ b) = played_sequences a ++ played_sequences b :=
    fun a b => List.filterMap_append a b played_sequence
  rw [r1, r2, hcalls]
  refine ⟨e1', q1', e2', q2', m2', e3', q3', m3', ?_, ?_⟩
  · rw [happ1, happ1, happ1, e1', e2', e3']; rfl
  · rw [happ2, happ2, happ2, q1', q2', q3']; rfl

/-- Witness of C12: the three ticks of the scenario after a start-up on a
sample with charge 50. -/
theorem charging_scenario_witness :
    (power_srv (reading_tick false 50 false).info).state = PowerState.NotCharging ∧
    charge_events (run_ticks_calls (power_srv (reading_tick false 50 false).info)
      [reading_tick false 50 false, reading_tick true 50 false, reading_tick true 100 false]) =
      [PowerEventType.StartCharging, PowerEventType.FullyCharged] ∧
    level_events (power_tick_callback
      (run_ticks (power_srv (reading_tick false 50 false).info)
        [reading_tick false 50 false, reading_tick true 50 false])
      (reading_tick true 100 false)).2 = [100] := by
  have h := charging_scenario (power_srv (reading_tick false 50 false).info)
    (reading_tick false 50 false) (reading_tick true 50 false) (reading_tick true 100 false)
    rfl ⟨rfl, rfl⟩ ⟨rfl, rfl, rfl⟩ ⟨rfl, rfl, rfl⟩
  exact ⟨rfl, h.2.2.2.2.2.2.2.2.1, h.2.2.2.2.2.2.2.1⟩

/-! ## Low-battery flow transitions -/

/-- The response handling keeps the low-battery flag and neither shows the
prompt nor brings the view holder to the front. -/
theorem low_battery_response_frame (p : Power) (r : PowerOffResponse) :
    (low_battery_response p r).1.battery_low = p.battery_low ∧
    (low_battery_response p r).2.count (Call.view_holder_set_view (some View.power_off)) = 0 ∧
    (low_battery_response p r).2.count Call.view_holder_send_to_front = 0 := by
  simp only [low_battery_response, power_off_countdown]
  cases r <;> (repeat' split) <;> simp

/-- Over a run of ticks with a healthy gauge on which the entry condition
holds, the prompt is shown once if the flow was idle before the run, and not
at all if it was active; after a non-empty run the flow is active. -/
theorem run_entry_ticks_prompt (inputs : List TickInput) :
    ∀ p : Power, (∀ i ∈ inputs, i.info.gauge_is_ok = true ∧ entry_condition p i) →
      (run_ticks_calls p inputs).count (Call.view_holder_set_view (some View.power_off)) =
        (if p.battery_low = false ∧ inputs ≠ [] then 1 else 0) ∧
      (inputs ≠ [] → (run_ticks p inputs).battery_low = true) := by
  induction inputs with
  | nil => intro p _; simp [run_ticks_calls]
  | cons i rest ih =>
    intro p hall
    obtain ⟨hg, hc⟩ := hall i (List.mem_cons_self i rest)
    obtain ⟨_, f2, _⟩ := tick_low_battery_fields p i
    have hcount := tick_count_low_battery_call p i
      (Call.view_holder_set_view (some View.power_off)) rfl
    rw [tick_entry p i hg hc] at f2 hcount
    obtain ⟨g1, g2, _⟩ := low_battery_response_frame
      { p with info := i.info, battery_low := true } i.response
    have hb : (power_tick_callback p i).1.battery_low = true := by rw [f2, g1]
    have hcount2 : (power_tick_callback p i).2.count
        (Call.view_holder_set_view (some View.power_off)) =
        (if p.battery_low = false then 1 else 0) := by
      rw [hcount, List.count_append, g2]
      by_cases h : p.battery_low = false <;> simp [h]
    have hall2 : ∀ x ∈ rest,
        x.info.gauge_is_ok = true ∧ entry_condition (power_tick_callback p i).1 x := by
      intro x hx
      obtain ⟨xg, xc⟩ := hall x (List.mem_cons_of_mem i hx)
      exact ⟨xg, xc.1, xc.2.1, by rw [tick_warning_flag]; exact xc.2.2⟩
    obtain ⟨r1, r2⟩ := ih (power_tick_callback p i).1 hall2
    constructor
    · simp only [run_ticks_calls, List.count_append, hcount2, r1, hb]
      by_cases h : p.battery_low = false <;> simp [h]
    · intro _
      rw [run_ticks_cons]
      cases rest with
      | nil => simpa [run_ticks] using hb
      | cons j rest2 => exact r2 (List.cons_ne_nil j rest2)

/-- C13 as stated fails for a run entered with the flag already set: after
start-up, one scenario tick starts the flow, a tick on a degraded sensor
(skipped by the gauge guard) leaves the flag set, and the run of five
consecutive qualifying ticks that follows shows the prompt not once but never. -/
theorem run_after_degraded_tick_shows_no_prompt :
    (∀ x ∈ List.replicate 5 scenario_tick,
      x.info.gauge_is_ok = true ∧
      entry_condition (run_ticks (power_srv scenario_info) [scenario_tick, degraded_tick]) x) ∧
    degraded_tick.info.gauge_is_ok = false ∧
    (run_ticks (power_srv scenario_info) [scenario_tick, degraded_tick]).battery_low = true ∧
    (run_ticks_calls (run_ticks (power_srv scenario_info) [scenario_tick, degraded_tick])
      (List.replicate 5 scenario_tick)).count
        (Call.view_holder_set_view (some View.power_off)) = 0 ∧
    ¬ ((run_ticks_calls (run_ticks (power_srv scenario_info) [scenario_tick, degraded_tick])
      (List.replicate 5 scenario_tick)).count
        (Call.view_holder_set_view (some View.power_off)) = 1) := by
  have hrun : run_ticks (power_srv scenario_info) [scenario_tick, degraded_tick] =
      (power_tick_callback (power_tick_callback (power_srv scenario_info) scenario_tick).1
        degraded_tick).1 := rfl
  obtain ⟨a1, a2, _, _⟩ := countdown_tick_step (power_srv scenario_info) scenario_tick rfl
    scenario_tick_countdown
  obtain ⟨_, f2, _⟩ := tick_low_battery_fields
    (power_tick_callback (power_srv scenario_info) scenario_tick).1 degraded_tick
  rw [tick_gauge_bad _ degraded_tick rfl] at f2
  have hb : (run_ticks (power_srv scenario_info) [scenario_tick, degraded_tick]).battery_low
      = true := by
    rw [hrun, f2]; exact a2
  have hw : (run_ticks (power_srv scenario_info)
      [scenario_tick, degraded_tick]).show_battery_low_warning = true := by
    rw [hrun, tick_warning_flag]; exact a1
  have hall : ∀ x ∈ List.replicate 5 scenario_tick,
      x.info.gauge_is_ok = true ∧
      entry_condition (run_ticks (power_srv scenario_info) [scenario_tick, degraded_tick]) x := by
    intro x hx
    rw [List.eq_of_mem_replicate hx]
    exact ⟨rfl, rfl, scenario_tick_countdown.2.2.1, hw⟩
  have h0 := (run_entry_ticks_prompt (List.replicate 5 scenario_tick) _ hall).1
  have hz : (run_ticks_calls (run_ticks (power_srv scenario_info) [scenario_tick, degraded_tick])
      (List.replicate 5 scenario_tick)).count
        (Call.view_holder_set_view (some View.power_off)) = 0 := by
    rw [h0]; simp [hb]
  refine ⟨hall, rfl, hb, hz, ?_⟩
  rw [hz]; decide

/-- C13, amended.  `power_check_low_battery` on a snapshot with a healthy gauge:
if the entry condition (shutdown requested, VBUS below 4.0, warnings enabled)
holds, the flag is set after the check and the check shows the prompt exactly
when the flag was clear before it.  Over any run of consecutive ticks with a
healthy gauge on which the condition holds, from any controller state: if the
flow was idle before the run the prompt is shown exactly once, by the first
tick; if the flag was already set before the run the prompt is not shown at
all; in both cases no later tick of the run shows it and the flow is active
after the run.  If the condition does not hold and the flag was set, the flag
is cleared, the countdown is reset to 90 and the only call is the one that
hides the prompt (so no shutdown).  If the condition does not hold and the flag
was clear, the controller record is unchanged and there is no call. -/
theorem low_battery_transitions (p : Power) (r : PowerOffResponse)
    (inputs : List TickInput) (i : TickInput) :
    (p.info.gauge_is_ok = true →
      (p.info.is_shutdown_requested = true ∧ p.info.voltage_vbus < POWER_VBUS_LOW_THRESHOLD ∧
        p.show_battery_low_warning = true) →
      (power_check_low_battery p r).1.battery_low = true ∧
      (power_check_low_battery p r).2.count (Call.view_holder_set_view (some View.power_off)) =
        (if p.battery_low = false then 1 else 0) ∧
      (power_check_low_battery p r).2.count Call.view_holder_send_to_front =
        (if p.battery_low = false then 1 else 0)) ∧
    ((∀ x ∈ i :: inputs, x.info.gauge_is_ok = true ∧ entry_condition p x) →
      (run_ticks_calls p (i :: inputs)).count
        (Call.view_holder_set_view (some View.power_off)) =
        (if p.battery_low = false then 1 else 0) ∧
      (power_tick_callback p i).2.count (Call.view_holder_set_view (some View.power_off)) =
        (if p.battery_low = false then 1 else 0) ∧
      (run_ticks_calls (power_tick_callback p i).1 inputs).count
        (Call.view_holder_set_view (some View.power_off)) = 0 ∧
      (run_ticks p (i :: inputs)).battery_low = true) ∧
    (p.info.gauge_is_ok = true →
      ¬ (p.info.is_shutdown_requested = true ∧
        p.info.voltage_vbus < POWER_VBUS_LOW_THRESHOLD ∧
        p.show_battery_low_warning = true) →
      (p.battery_low = true →
        power_check_low_battery p r =
          ({ p with power_off_timeout := 90, battery_low := false },
            [Call.view_holder_set_view none])) ∧
      (p.battery_low = false → power_check_low_battery p r = (p, []))) := by
  refine ⟨?_, ?_, ?_⟩
  · intro hg hc
    obtain ⟨g1, g2, g3⟩ := low_battery_response_frame { p with battery_low := true } r
    have e : power_check_low_battery p r =
        ((low_battery_response { p with battery_low := true } r).1,
         (if p.battery_low = false then
            [Call.view_holder_send_to_front, Call.view_holder_set_view (some View.power_off)]
          else []) ++ (low_battery_response { p with battery_low := true } r).2) := by
      simp [power_check_low_battery, low_battery_entry_check, hg, hc]
    rw [e]
    refine ⟨g1, ?_, ?_⟩
    · simp only [List.count_append, g2]
      by_cases h : p.battery_low = false <;> simp [h]
    · simp only [List.count_append, g3]
      by_cases h : p.battery_low = false <;> simp [h]
  · intro hall
    obtain ⟨r1, r2⟩ := run_entry_ticks_prompt (i :: inputs) p hall
    obtain ⟨t1, t2⟩ := run_entry_ticks_prompt [i] p
      (fun x hx => hall x (by
        rw [List.mem_singleton] at hx
        rw [hx]; exact List.mem_cons_self i inputs))
    have hone : run_ticks_calls p [i] = (power_tick_callback p i).2 ++ [] := rfl
    rw [hone, List.append_nil] at t1
    have hb1 : (power_tick_callback p i).1.battery_low = true := by
      have := t2 (List.cons_ne_nil i [])
      simpa [run_ticks] using this
    have hrest : ∀ x ∈ inputs,
        x.info.gauge_is_ok = true ∧ entry_condition (power_tick_callback p i).1 x := by
      intro x hx
      obtain ⟨xg, xc⟩ := hall x (List.mem_cons_of_mem i hx)
      exact ⟨xg, xc.1, xc.2.1, by rw [tick_warning_flag]; exact xc.2.2⟩
    obtain ⟨u1, _⟩ := run_entry_ticks_prompt inputs (power_tick_callback p i).1 hrest
    refine ⟨?_, ?_, ?_, r2 (List.cons_ne_nil i inputs)⟩
    · rw [r1]
      by_cases h : p.battery_low = false <;> simp [h]
    · rw [t1]
      by_cases h : p.battery_low = false <;> simp [h]
    · rw [u1]; simp [hb1]
  · intro hg hc
    constructor
    · intro hb
      simp [power_check_low_battery, low_battery_entry_check, low_battery_response, hg, hc, hb,
        POWER_OFF_TIMEOUT_S]
    · intro hb
      have e : ({ p with battery_low := false } : Power) = p := by
        cases p; simp_all
      simp [power_check_low_battery, low_battery_entry_check, low_battery_response, hg, hc, hb, e]

/-- Witness of C13 (amended): five scenario ticks after start-up show the
prompt once, on the first tick; the active flow on the plugged-in sample is left
with one hide and the countdown at 90. -/
theorem low_battery_transitions_witness :
    (∀ x ∈ scenario_tick :: List.replicate 4 scenario_tick,
      x.info.gauge_is_ok = true ∧ entry_condition (power_srv scenario_info) x) ∧
    (run_ticks_calls (power_srv scenario_info) (scenario_tick :: List.replicate 4 scenario_tick)).count
      (Call.view_holder_set_view (some View.power_off)) = 1 ∧
    (power_tick_callback (power_srv scenario_info) scenario_tick).2.count
      (Call.view_holder_set_view (some View.power_off)) = 1 ∧
    power_check_low_battery { active_power with info := plugged_info } PowerOffResponse.Default =
      ({ active_power with info := plugged_info, power_off_timeout := 90, battery_low := false },
        [Call.view_holder_set_view none]) := by
  have hv : scenario_info.voltage_vbus < POWER_VBUS_LOW_THRESHOLD := by
    norm_num [scenario_info, POWER_VBUS_LOW_THRESHOLD]
  have hall : ∀ x ∈ scenario_tick :: List.replicate 4 scenario_tick,
      x.info.gauge_is_ok = true ∧ entry_condition (power_srv scenario_info) x := by
    intro x hx
    have : x = scenario_tick := by
      rcases List.mem_cons.1 hx with h | h
      · exact h
      · exact List.eq_of_mem_replicate h
    rw [this]; exact ⟨rfl, rfl, hv, rfl⟩
  have h1 := (low_battery_transitions (power_srv scenario_info) PowerOffResponse.Default
    (List.replicate 4 scenario_tick) scenario_tick).2.1 hall
  have hidle : (power_srv scenario_info).battery_low = false := rfl
  rw [if_pos hidle] at h1
  have hn : ¬ (({ active_power with info := plugged_info } : Power).info.is_shutdown_requested
      = true ∧
      ({ active_power with info := plugged_info } : Power).info.voltage_vbus
        < POWER_VBUS_LOW_THRESHOLD ∧
      ({ active_power with info := plugged_info } : Power).show_battery_low_warning = true) := by
    intro h
    have h2 := h.2.1
    norm_num [plugged_info, POWER_VBUS_LOW_THRESHOLD] at h2
  have h2 := ((low_battery_transitions { active_power with info := plugged_info }
    PowerOffResponse.Default [] scenario_tick).2.2 rfl hn).1 rfl
  exact ⟨hall, h1.1, h1.2.1, h2⟩

/-! ## Degraded sensor -/

/-- C16. When the snapshot's gauge-health flag is false, `power_check_low_battery`
returns the controller record unchanged (so the low-battery flag and the
countdown keep their values) and makes no call at all: it neither shows nor
hides the prompt, does not read the prompt response and requests no shutdown,
whatever the flow, the countdown, the response and the other readings.  In a
whole tick on such a sample the flag and the countdown are unchanged and no call
goes to the prompt, the view holder or `power_off`. -/
theorem degraded_sensor_skips_low_battery (p : Power) (r : PowerOffResponse) (i : TickInput) :
    (p.info.gauge_is_ok = false → power_check_low_battery p r = (p, [])) ∧
    (i.info.gauge_is_ok = false →
      (power_tick_callback p i).1.battery_low = p.battery_low ∧
      (power_tick_callback p i).1.power_off_timeout = p.power_off_timeout ∧
      (power_tick_callback p i).2.filter low_battery_call = []) := by
  constructor
  · intro hg
    simp [power_check_low_battery, hg]
  · intro hg
    obtain ⟨f1, f2, _⟩ := tick_low_battery_fields p i
    rw [f1, f2, tick_calls_filter, tick_gauge_bad p i hg]
    exact ⟨rfl, rfl, rfl⟩

/-- Witness of C16: the active flow with countdown 50, shutdown requested and
VBUS 3.5 V, on a snapshot with an unhealthy gauge: nothing happens, whatever
the response. -/
theorem degraded_sensor_skips_low_battery_witness :
    gauge_bad_power.battery_low = true ∧
    gauge_bad_power.info.gauge_is_ok = false ∧
    power_check_low_battery gauge_bad_power PowerOffResponse.Ok = (gauge_bad_power, []) := by
  exact ⟨rfl, rfl,
    (degraded_sensor_skips_low_battery gauge_bad_power PowerOffResponse.Ok scenario_tick).1 rfl⟩

/-! ## Countdown invariant -/

/-- The response handling never raises the countdown. -/
theorem low_battery_response_timeout (p : Power) (r : PowerOffResponse)
    (h : p.power_off_timeout < UINT8_MOD) :
    (low_battery_response p r).1.power_off_timeout ≤ p.power_off_timeout := by
  have hdec : p.power_off_timeout ≠ 0 →
      timeout_post_decrement p.power_off_timeout ≤ p.power_off_timeout := by
    intro h0
    rw [timeout_post_decrement_pos _ h0 h]; omega
  by_cases hb : p.battery_low = true
  · by_cases h0 : p.power_off_timeout = 0
    · cases r <;> simp [low_battery_response, power_off_countdown, hb, h0]
    · cases r <;> simp [low_battery_response, power_off_countdown, hb, h0, hdec h0]
  · simp [low_battery_response, hb]

/-- The low-battery check when the gauge is healthy and the entry condition
holds on the stored snapshot. -/
theorem check_low_battery_entry (p : Power) (r : PowerOffResponse)
    (hg : p.info.gauge_is_ok = true)
    (hc : p.info.is_shutdown_requested = true ∧
      p.info.voltage_vbus < POWER_VBUS_LOW_THRESHOLD ∧ p.show_battery_low_warning = true) :
    power_check_low_battery p r =
      ((low_battery_response { p with battery_low := true } r).1,
       (if p.battery_low = false then
          [Call.view_holder_send_to_front, Call.view_holder_set_view (some View.power_off)]
        else []) ++ (low_battery_response { p with battery_low := true } r).2) := by
  simp [power_check_low_battery, low_battery_entry_check, hg, hc]

/-- The low-battery check when the gauge is healthy and the entry condition
fails on the stored snapshot. -/
theorem check_low_battery_exit (p : Power) (r : PowerOffResponse)
    (hg : p.info.gauge_is_ok = true)
    (hc : ¬ (p.info.is_shutdown_requested = true ∧
      p.info.voltage_vbus < POWER_VBUS_LOW_THRESHOLD ∧ p.show_battery_low_warning = true)) :
    power_check_low_battery p r =
      (if p.battery_low = true then
        ({ p with power_off_timeout := POWER_OFF_TIMEOUT_S, battery_low := false },
          [Call.view_holder_set_view none])
       else ({ p with battery_low := false }, [])) := by
  simp only [power_check_low_battery, low_battery_entry_check, hg, hc, low_battery_response]
  by_cases hb : p.battery_low = true <;> simp [hb]

/-- The low-battery check either does not raise the countdown, or leaves the
flow idle with the countdown reset to 90. -/
theorem check_low_battery_timeout (p : Power) (r : PowerOffResponse)
    (h : p.power_off_timeout < UINT8_MOD) :
    (power_check_low_battery p r).1.power_off_timeout ≤ p.power_off_timeout ∨
    ((power_check_low_battery p r).1.power_off_timeout = 90 ∧
      (power_check_low_battery p r).1.battery_low = false) := by
  by_cases hg : p.info.gauge_is_ok = true
  · by_cases hc : (p.info.is_shutdown_requested = true ∧
        p.info.voltage_vbus < POWER_VBUS_LOW_THRESHOLD ∧ p.show_battery_low_warning = true)
    · left
      rw [check_low_battery_entry p r hg hc]
      exact low_battery_response_timeout { p with battery_low := true } r h
    · rw [check_low_battery_exit p r hg hc]
      by_cases hb : p.battery_low = true
      · right
        simp [hb, POWER_OFF_TIMEOUT_S]
      · left
        simp [hb]
  · left
    have hg2 : p.info.gauge_is_ok = false := by simpa using hg
    simp [power_check_low_battery, hg2]

/-- A handler leaves the countdown and the low-battery flag as it found them. -/
theorem message_keeps_countdown (p : Power) (msg : PowerMessage) (enable : Nat → Bool) :
    (power_message_callback p msg enable).power.power_off_timeout = p.power_off_timeout ∧
    (power_message_callback p msg enable).power.battery_low = p.battery_low := by
  unfold power_message_callback
  cases hmt : msg.type <;> simp only [and_self]
  rw [switch_otg_power]
  exact ⟨rfl, rfl⟩

/-- A tick keeps the countdown at 90 or below. -/
theorem tick_countdown_le (p : Power) (i : TickInput) (h : p.power_off_timeout ≤ 90) :
    (power_tick_callback p i).1.power_off_timeout ≤ 90 ∧
    ((power_tick_callback p i).1.battery_low = true →
      (power_tick_callback p i).1.power_off_timeout ≤ p.power_off_timeout) := by
  obtain ⟨f1, f2, _⟩ := tick_low_battery_fields p i
  have hlt : (power_update_info p i.info).2.power_off_timeout < UINT8_MOD := by
    show p.power_off_timeout < UINT8_MOD
    unfold UINT8_MOD; omega
  have hpi : (power_update_info p i.info).2.power_off_timeout = p.power_off_timeout := rfl
  rw [f1, f2]
  rcases check_low_battery_timeout (power_update_info p i.info).2 i.response hlt with hle | ⟨h90, hb⟩
  · rw [hpi] at hle
    exact ⟨Nat.le_trans hle h, fun _ => hle⟩
  · refine ⟨by rw [h90], ?_⟩
    intro hact
    rw [hb] at hact
    exact absurd hact (by decide)

/-- The countdown is at most 90 after any list of wake-ups from a state where
it is at most 90. -/
theorem event_loop_countdown_le (evs : List LoopEvent) :
    ∀ p : Power, p.power_off_timeout ≤ 90 →
      (furi_event_loop_run p evs).power.power_off_timeout ≤ 90 := by
  induction evs with
  | nil => intro p h; exact h
  | cons ev rest ih =>
    intro p h
    have hstep : (loop_step p ev).power.power_off_timeout ≤ 90 := by
      cases ev with
      | tick input => exact (tick_countdown_le p input h).1
      | message msg enable =>
        show (power_message_callback p msg enable).power.power_off_timeout ≤ 90
        rw [(message_keeps_countdown p msg enable).1]; exact h
    by_cases hx : (loop_step p ev).exit = Exit.returned
    · have hrun : furi_event_loop_run p (ev :: rest) =
          { power := (furi_event_loop_run (loop_step p ev).power rest).power,
            calls := (loop_step p ev).calls ++
              (furi_event_loop_run (loop_step p ev).power rest).calls,
            exit := (furi_event_loop_run (loop_step p ev).power rest).exit } := by
        simp only [furi_event_loop_run, hx]
      rw [hrun]
      exact ih (loop_step p ev).power hstep
    · have hrun : furi_event_loop_run p (ev :: rest) = loop_step p ev := by
        simp only [furi_event_loop_run]
      rw [hrun]
      exact hstep

/-- C14. In every state reached from the start-up state by any list of ticks
and commands, the countdown is at most 90 (it is a natural number, so also at
least 0: the guarded unsigned decrement never wraps to 255); a further tick
keeps it at most 90; and when the flow is active after that tick (in
particular when it is active before and after it) the countdown after the tick
is at most the countdown before it. -/
theorem countdown_invariant (first_sample : PowerInfo) (evs : List LoopEvent) (i : TickInput) :
    (furi_event_loop_run (power_srv first_sample) evs).power.power_off_timeout ≤ 90 ∧
    (power_tick_callback (furi_event_loop_run (power_srv first_sample) evs).power i).1.power_off_timeout
      ≤ 90 ∧
    ((furi_event_loop_run (power_srv first_sample) evs).power.battery_low = true →
      (power_tick_callback (furi_event_loop_run (power_srv first_sample) evs).power i).1.battery_low
        = true →
      (power_tick_callback (furi_event_loop_run (power_srv first_sample) evs).power i).1.power_off_timeout
        ≤ (furi_event_loop_run (power_srv first_sample) evs).power.power_off_timeout) := by
  have h0 : (power_srv first_sample).power_off_timeout ≤ 90 := Nat.le_refl 90
  have h := event_loop_countdown_le evs (power_srv first_sample) h0
  obtain ⟨t1, t2⟩ := tick_countdown_le
    (furi_event_loop_run (power_srv first_sample) evs).power i h
  exact ⟨h, t1, fun _ => t2⟩

/-- Witness of C14: after start-up and one scenario tick the flow is active;
a second scenario tick keeps it active and does not raise the countdown. -/
theorem countdown_invariant_witness :
    (furi_event_loop_run (power_srv scenario_info) [LoopEvent.tick scenario_tick]).power.battery_low
      = true ∧
    (power_tick_callback
      (furi_event_loop_run (power_srv scenario_info) [LoopEvent.tick scenario_tick]).power
      scenario_tick).1.power_off_timeout ≤
    (furi_event_loop_run (power_srv scenario_info)
      [LoopEvent.tick scenario_tick]).power.power_off_timeout := by
  have hrun : (furi_event_loop_run (power_srv scenario_info) [LoopEvent.tick scenario_tick]).power
      = (power_tick_callback (power_srv scenario_info) scenario_tick).1 := rfl
  obtain ⟨a1, a2, _, _⟩ := countdown_tick_step (power_srv scenario_info) scenario_tick rfl
    scenario_tick_countdown
  obtain ⟨_, b2, _, _⟩ := countdown_tick_step
    (power_tick_callback (power_srv scenario_info) scenario_tick).1 scenario_tick a1
    scenario_tick_countdown
  have hact : (furi_event_loop_run (power_srv scenario_info)
      [LoopEvent.tick scenario_tick]).power.battery_low = true := by rw [hrun]; exact a2
  have h := (countdown_invariant scenario_info [LoopEvent.tick scenario_tick] scenario_tick).2.2
    hact (by rw [hrun]; exact b2)
  exact ⟨hact, h⟩

/-! ## Hide and Default -/

/-- The response handling for `Hide` is the one for `Default` with the call that
hides the prompt put right after the read of the response. -/
theorem low_battery_response_hide (p : Power) (hb : p.battery_low = true) :
    low_battery_response p PowerOffResponse.Default =
      ((power_off_countdown p).1, Call.power_off_get_response :: (power_off_countdown p).2) ∧
    low_battery_response p PowerOffResponse.Hide =
      ((power_off_countdown p).1,
        Call.power_off_get_response :: Call.view_holder_set_view none ::
          (power_off_countdown p).2) := by
  simp [low_battery_response, hb]

/-- A tick as a function of what its low-battery check returns. -/
theorem tick_eq_of_low_battery (p : Power) (i : TickInput) :
    power_tick_callback p i =
      ((power_tick_otg (power_check_battery_level_change (power_check_charging_state
          (power_check_low_battery (power_update_info p i.info).2 i.response).1
          i.is_charging i.is_charging_done).1).1 i.otg_fault).1,
       (power_check_low_battery (power_update_info p i.info).2 i.response).2 ++
        ((power_check_charging_state
            (power_check_low_battery (power_update_info p i.info).2 i.response).1
            i.is_charging i.is_charging_done).2 ++
          (power_check_battery_level_change (power_check_charging_state
            (power_check_low_battery (power_update_info p i.info).2 i.response).1
            i.is_charging i.is_charging_done).1).2 ++
          (if (power_update_info p i.info).1 = true then [Call.view_port_update] else []) ++
          (power_tick_otg (power_check_battery_level_change (power_check_charging_state
            (power_check_low_battery (power_update_info p i.info).2 i.response).1
            i.is_charging i.is_charging_done).1).1 i.otg_fault).2)) := by
  simp only [power_tick_callback, List.append_assoc]

/-- C15. On a tick with a healthy gauge whose flow is active after the entry
check, the response `Hide` gives the same controller record as the response
`Default` (so the same countdown and the same low-battery flag), the same
time-left calls and the same shutdown requests; the calls of the `Hide` tick are
those of the `Default` tick with one more call, the one that hides the prompt:
the `Default` tick has no such call, and removing it from the `Hide` tick
gives the calls of the `Default` tick. -/
theorem hide_counts_down_as_default (p : Power) (i : TickInput)
    (hg : i.info.gauge_is_ok = true)
    (h_active : (low_battery_entry_check (power_update_info p i.info).2).1.battery_low = true) :
    (power_tick_callback p { i with response := PowerOffResponse.Hide }).1 =
      (power_tick_callback p { i with response := PowerOffResponse.Default }).1 ∧
    (∀ t, (power_tick_callback p { i with response := PowerOffResponse.Hide }).2.count
        (Call.power_off_set_time_left t) =
      (power_tick_callback p { i with response := PowerOffResponse.Default }).2.count
        (Call.power_off_set_time_left t)) ∧
    (power_tick_callback p { i with response := PowerOffResponse.Hide }).2.count Call.power_off =
      (power_tick_callback p { i with response := PowerOffResponse.Default }).2.count
        Call.power_off ∧
    Call.view_holder_set_view none ∈
      (power_tick_callback p { i with response := PowerOffResponse.Hide }).2 ∧
    Call.view_holder_set_view none ∉
      (power_tick_callback p { i with response := PowerOffResponse.Default }).2 ∧
    (power_tick_callback p { i with response := PowerOffResponse.Hide }).2.erase
        (Call.view_holder_set_view none) =
      (power_tick_callback p { i with response := PowerOffResponse.Default }).2 := by
  have hc : entry_condition p i := by
    by_contra hn
    have hn2 : ¬ (i.info.is_shutdown_requested = true ∧
        i.info.voltage_vbus < POWER_VBUS_LOW_THRESHOLD ∧ p.show_battery_low_warning = true) := hn
    have : (low_battery_entry_check (power_update_info p i.info).2).1.battery_low = false := by
      simp only [low_battery_entry_check, power_update_info, hn2]
      by_cases hb : p.battery_low = true <;> simp [hb]
    rw [this] at h_active
    exact absurd h_active (by decide)
  obtain ⟨d1, d2⟩ := low_battery_response_hide { p with info := i.info, battery_low := true } rfl
  have eH := tick_entry p { i with response := PowerOffResponse.Hide } hg hc
  have eD := tick_entry p { i with response := PowerOffResponse.Default } hg hc
  simp only [d1, d2] at eH eD
  have tH := tick_eq_of_low_battery p { i with response := PowerOffResponse.Hide }
  have tD := tick_eq_of_low_battery p { i with response := PowerOffResponse.Default }
  simp only [eH] at tH
  simp only [eD] at tD
  rw [tH, tD]
  have hcd : ∀ q : Power, Call.view_holder_set_view none ∉ (power_off_countdown q).2 := by
    intro q; unfold power_off_countdown; split <;> simp
  have hD : Call.view_holder_set_view none ∉
      (power_tick_callback p { i with response := PowerOffResponse.Default }).2 := by
    rw [tick_mem_low_battery_call p { i with response := PowerOffResponse.Default }
      (Call.view_holder_set_view none) rfl, eD]
    have := hcd { p with info := i.info, battery_low := true }
    by_cases hb : p.battery_low = false <;> simp [hb, this]
  rw [tD] at hD
  refine ⟨rfl, ?_, ?_, ?_, hD, ?_⟩
  · intro t
    simp only [List.count_append, List.count_cons]
    simp
  · simp only [List.count_append, List.count_cons]
    simp
  · simp
  · have hmem : Call.view_holder_set_view none ∈
        (if p.battery_low = false then
          [Call.view_holder_send_to_front, Call.view_holder_set_view (some View.power_off)]
         else []) ++
        Call.power_off_get_response :: Call.view_holder_set_view none ::
          (power_off_countdown { p with info := i.info, battery_low := true }).2 := by
      simp
    rw [List.erase_append_left _ hmem]
    congr 1
    by_cases hb : p.battery_low = false
    · simp [hb, List.erase_cons]
    · simp [hb, List.erase_cons]

/-- Witness of C15: the first scenario tick after start-up, answered `Hide`
or `Default`. -/
theorem hide_counts_down_as_default_witness :
    (low_battery_entry_check
      (power_update_info (power_srv scenario_info) scenario_tick.info).2).1.battery_low = true ∧
    (power_tick_callback (power_srv scenario_info)
      { scenario_tick with response := PowerOffResponse.Hide }).1 =
    (power_tick_callback (power_srv scenario_info)
      { scenario_tick with response := PowerOffResponse.Default }).1 ∧
    Call.view_holder_set_view none ∈ (power_tick_callback (power_srv scenario_info)
      { scenario_tick with response := PowerOffResponse.Hide }).2 := by
  have hv : scenario_info.voltage_vbus < POWER_VBUS_LOW_THRESHOLD := by
    norm_num [scenario_info, POWER_VBUS_LOW_THRESHOLD]
  have ha : (low_battery_entry_check
      (power_update_info (power_srv scenario_info) scenario_tick.info).2).1.battery_low
      = true := by
    have hc : (power_update_info (power_srv scenario_info)
          scenario_tick.info).2.info.is_shutdown_requested = true ∧
        (power_update_info (power_srv scenario_info) scenario_tick.info).2.info.voltage_vbus
          < POWER_VBUS_LOW_THRESHOLD ∧
        (power_update_info (power_srv scenario_info)
          scenario_tick.info).2.show_battery_low_warning = true := ⟨rfl, hv, rfl⟩
    simp only [low_battery_entry_check, hc, and_self, if_true]
  have h := hide_counts_down_as_default (power_srv scenario_info) scenario_tick rfl ha
  exact ⟨ha, h.1, h.2.2.2.1⟩

/-! ## OTG handling in the tick -/

/-- The checks before the OTG part of a tick leave the OTG-requested flag
alone. -/
theorem tick_checks_keep_otg_flag (p : Power) (r : PowerOffResponse) (c d : Bool) :
    (power_check_low_battery p r).1.is_otg_requested = p.is_otg_requested ∧
    (power_check_charging_state p c d).1.is_otg_requested = p.is_otg_requested ∧
    (power_check_battery_level_change p).1.is_otg_requested = p.is_otg_requested ∧
    (power_check_battery_level_change p).1.info = p.info := by
  refine ⟨?_, ?_, ?_, ?_⟩
  · simp only [power_check_low_battery, low_battery_entry_check, low_battery_response,
      power_off_countdown]
    cases r <;> (repeat' split) <;> rfl
  · rw [check_charging_state_eq]
    split <;> rfl
  · unfold power_check_battery_level_change
    split <;> rfl
  · unfold power_check_battery_level_change
    split <;> rfl

/-- The checks before the OTG part of a tick make no OTG call. -/
theorem tick_checks_no_otg_call (p : Power) (r : PowerOffResponse) (c d b : Bool) (x : Call)
    (hx : x = Call.furi_hal_power_enable_otg ∨ x = Call.furi_hal_power_disable_otg) :
    (power_check_low_battery p r).2.count x = 0 ∧
    (power_check_charging_state p c d).2.count x = 0 ∧
    (power_check_battery_level_change p).2.count x = 0 ∧
    (if b = true then [Call.view_port_update] else []).count x = 0 := by
  refine ⟨?_, ?_, ?_, ?_⟩
  · rw [List.count_eq_zero]
    intro hmem
    rw [← check_low_battery_calls_filter] at hmem
    have := (List.mem_filter.1 hmem).2
    rcases hx with h | h <;> rw [h] at this <;> exact absurd this (by decide)
  · rw [check_charging_state_eq]
    rcases hx with h | h <;> rw [h] <;> split <;> simp [charge_state_entry]
  · unfold power_check_battery_level_change
    rcases hx with h | h <;> rw [h] <;> split <;> simp
  · rcases hx with h | h <;> rw [h] <;> cases b <;> simp

/-- The OTG part of the tick on its own. -/
theorem tick_otg_calls (q : Power) (fault : Bool) :
    (fault = true →
      (power_tick_otg q fault).1.is_otg_requested = false ∧
      disable_calls (power_tick_otg q fault).2 = 1 ∧
      enable_calls (power_tick_otg q fault).2 = 0) ∧
    (fault = false →
      (power_tick_otg q fault).1.is_otg_requested = q.is_otg_requested ∧
      disable_calls (power_tick_otg q fault).2 = 0 ∧
      enable_calls (power_tick_otg q fault).2 =
        (if q.is_otg_requested = true ∧ q.info.is_otg_enabled = false ∧
            q.info.voltage_vbus < OTG_VBUS_THRESHOLD then 1 else 0)) := by
  constructor
  · intro hf
    simp [power_tick_otg, hf, disable_calls, enable_calls]
  · intro hf
    by_cases hc : (q.is_otg_requested = true ∧ q.info.is_otg_enabled = false ∧
        q.info.voltage_vbus < OTG_VBUS_THRESHOLD)
    · simp [power_tick_otg, hf, disable_calls, enable_calls, hc]
    · simp only [hc, if_false]
      simp [power_tick_otg, hf, disable_calls, enable_calls, hc]

/-- C17. The OTG handling of a tick, for every controller state and tick.  On
an OTG fault the tick disables OTG (one disable call), leaves the OTG-requested
flag cleared and makes no enable call.  Without a fault it makes no disable
call, keeps the flag, and makes exactly one enable call when OTG is requested,
the sample reports OTG not enabled and VBUS is below 4.5 V, none otherwise.  A
tick never makes more than one enable call. -/
theorem tick_otg_handling (p : Power) (i : TickInput) :
    (i.otg_fault = true →
      disable_calls (power_tick_callback p i).2 = 1 ∧
      (power_tick_callback p i).1.is_otg_requested = false ∧
      enable_calls (power_tick_callback p i).2 = 0) ∧
    (i.otg_fault = false →
      disable_calls (power_tick_callback p i).2 = 0 ∧
      (power_tick_callback p i).1.is_otg_requested = p.is_otg_requested ∧
      enable_calls (power_tick_callback p i).2 =
        (if p.is_otg_requested = true ∧ i.info.is_otg_enabled = false ∧
            i.info.voltage_vbus < OTG_VBUS_THRESHOLD then 1 else 0)) ∧
    enable_calls (power_tick_callback p i).2 ≤ 1 := by
  have hq1 : (power_check_battery_level_change (power_check_charging_state
      (power_check_low_battery (power_update_info p i.info).2 i.response).1
      i.is_charging i.is_charging_done).1).1.is_otg_requested = p.is_otg_requested := by
    rw [(tick_checks_keep_otg_flag _ i.response true true).2.2.1,
      (tick_checks_keep_otg_flag _ i.response i.is_charging i.is_charging_done).2.1,
      (tick_checks_keep_otg_flag _ i.response true true).1]
    rfl
  have hq2 : (power_check_battery_level_change (power_check_charging_state
      (power_check_low_battery (power_update_info p i.info).2 i.response).1
      i.is_charging i.is_charging_done).1).1.info = i.info := by
    rw [(tick_checks_keep_otg_flag _ i.response true true).2.2.2,
      (check_charging_state_level_frame _ _ _).2.1,
      (check_low_battery_state_info _ _).2]
    rfl
  have hcount : ∀ x : Call,
      (x = Call.furi_hal_power_enable_otg ∨ x = Call.furi_hal_power_disable_otg) →
      (power_tick_callback p i).2.count x =
        (power_tick_otg (power_check_battery_level_change (power_check_charging_state
          (power_check_low_battery (power_update_info p i.info).2 i.response).1
          i.is_charging i.is_charging_done).1).1 i.otg_fault).2.count x := by
    intro x hx
    rw [tick_calls_eq]
    simp only [List.count_append]
    rw [(tick_checks_no_otg_call _ i.response true true true x hx).1,
      (tick_checks_no_otg_call _ i.response i.is_charging i.is_charging_done true x hx).2.1,
      (tick_checks_no_otg_call _ i.response true true true x hx).2.2.1,
      (tick_checks_no_otg_call p i.response true true (power_update_info p i.info).1 x hx).2.2.2]
    simp
  have hen := hcount Call.furi_hal_power_enable_otg (Or.inl rfl)
  have hdis := hcount Call.furi_hal_power_disable_otg (Or.inr rfl)
  have hflag : (power_tick_callback p i).1.is_otg_requested =
      (power_tick_otg (power_check_battery_level_change (power_check_charging_state
          (power_check_low_battery (power_update_info p i.info).2 i.response).1
          i.is_charging i.is_charging_done).1).1 i.otg_fault).1.is_otg_requested := rfl
  obtain ⟨o1, o2⟩ := tick_otg_calls (power_check_battery_level_change
    (power_check_charging_state
      (power_check_low_battery (power_update_info p i.info).2 i.response).1
      i.is_charging i.is_charging_done).1).1 i.otg_fault
  rw [hq1, hq2] at o2
  unfold enable_calls disable_calls at *
  rw [hen, hdis, hflag]
  refine ⟨?_, ?_, ?_⟩
  · intro hf
    obtain ⟨a, b, c⟩ := o1 hf
    exact ⟨b, a, c⟩
  · intro hf
    obtain ⟨a, b, c⟩ := o2 hf
    exact ⟨b, a, c⟩
  · by_cases hf : i.otg_fault = true
    · rw [(o1 hf).2.2]; omega
    · have hf2 : i.otg_fault = false := by simpa using hf
      rw [(o2 hf2).2.2]; split <;> omega

/-- Witness of C17: with OTG requested, OTG not enabled and VBUS 3.5 V, a tick
without fault makes one enable call, a tick with a fault disables OTG and
clears the request. -/
theorem tick_otg_handling_witness :
    enable_calls (power_tick_callback otg_requested_power scenario_tick).2 = 1 ∧
    disable_calls (power_tick_callback otg_requested_power otg_fault_tick).2 = 1 ∧
    (power_tick_callback otg_requested_power otg_fault_tick).1.is_otg_requested = false ∧
    enable_calls (power_tick_callback otg_requested_power otg_fault_tick).2 = 0 := by
  have h1 := ((tick_otg_handling otg_requested_power scenario_tick).2.1 rfl).2.2
  have h2 := (tick_otg_handling otg_requested_power otg_fault_tick).1 rfl
  have hv : scenario_tick.info.voltage_vbus < OTG_VBUS_THRESHOLD := by
    norm_num [scenario_tick, scenario_info, OTG_VBUS_THRESHOLD]
  have hc : otg_requested_power.is_otg_requested = true ∧
      scenario_tick.info.is_otg_enabled = false ∧
      scenario_tick.info.voltage_vbus < OTG_VBUS_THRESHOLD := ⟨rfl, rfl, hv⟩
  rw [if_pos hc] at h1
  exact ⟨h1, h2.1, h2.2.1, h2.2.2⟩

/-! ## The enable-failure warning -/

/-- With VBUS below 4.5 V, the `SwitchOTG` case for value true logs the
enable-failure warning exactly when the first four enable calls fail and the
fifth succeeds. -/
theorem switch_otg_warning_iff (p : Power) (enable : Nat → Bool)
    (hv : p.info.voltage_vbus < OTG_VBUS_THRESHOLD) :
    Call.furi_log LogLine.otg_enable_failed ∈ (power_switch_otg p true enable).2 ↔
      (enable 0 = false ∧ enable 1 = false ∧ enable 2 = false ∧ enable 3 = false ∧
        enable 4 = true) := by
  have hmax : SIZE_MAX ≠ 0 := by decide
  simp only [power_switch_otg, hv, if_true]
  cases h0 : enable 0 <;> cases h1 : enable 1 <;> cases h2 : enable 2 <;>
    cases h3 : enable 3 <;> cases h4 : enable 4 <;>
    simp [otg_enable_loop, h0, h1, h2, h3, h4, hmax]

/-- C18, the code at the failing inputs.  Handling `SetOtgEnabled(true)` at
VBUS 3.5 V: when all five enable calls fail the handler returns after five
enable calls and logs no enable-failure warning; when the first four fail and
the fifth succeeds it logs the enable-failure warning.  (The loop counter
`retries` is post-decremented in the loop test, so it is `SIZE_MAX` after five
failures and 0 after a success on the fifth call, the reverse of what the test
`!retries` after the loop needs.) -/
theorem otg_failure_warning_misfires :
    (power_srv scenario_info).info.voltage_vbus < OTG_VBUS_THRESHOLD ∧
    (power_message_callback (power_srv scenario_info) (switch_otg_message true none)
      enable_always_fails).calls = List.replicate 5 Call.furi_hal_power_enable_otg ∧
    (power_message_callback (power_srv scenario_info) (switch_otg_message true none)
      enable_always_fails).exit = Exit.returned ∧
    Call.furi_log LogLine.otg_enable_failed ∉
      (power_message_callback (power_srv scenario_info) (switch_otg_message true none)
        enable_always_fails).calls ∧
    (power_message_callback (power_srv scenario_info) (switch_otg_message true none)
      fifth_call_succeeds).calls =
      List.replicate 5 Call.furi_hal_power_enable_otg ++
        [Call.furi_log LogLine.otg_enable_failed] := by
  have hv : (power_srv scenario_info).info.voltage_vbus < OTG_VBUS_THRESHOLD := by
    show scenario_info.voltage_vbus < OTG_VBUS_THRESHOLD
    norm_num [scenario_info, OTG_VBUS_THRESHOLD]
  have hmax : SIZE_MAX ≠ 0 := by decide
  have e1 : (power_message_callback (power_srv scenario_info) (switch_otg_message true none)
      enable_always_fails).calls = List.replicate 5 Call.furi_hal_power_enable_otg := by
    rw [message_switch_otg _ _ _ rfl]
    simp [power_switch_otg, switch_otg_message, hv, otg_enable_loop, enable_always_fails,
      message_unlock, hmax]
  have e2 : (power_message_callback (power_srv scenario_info) (switch_otg_message true none)
      fifth_call_succeeds).calls =
      List.replicate 5 Call.furi_hal_power_enable_otg ++
        [Call.furi_log LogLine.otg_enable_failed] := by
    rw [message_switch_otg _ _ _ rfl]
    simp [power_switch_otg, switch_otg_message, hv, otg_enable_loop, fifth_call_succeeds,
      message_unlock]
  refine ⟨hv, e1, rfl, ?_, e2⟩
  rw [e1]
  simp

/-! ## Commands leave the sampled state alone -/

/-- The `SwitchOTG` case publishes nothing. -/
theorem switch_otg_no_publish (p : Power) (value : Bool) (enable : Nat → Bool) (e : PowerEvent) :
    Call.furi_pubsub_publish e ∉ (power_switch_otg p value enable).2 := by
  obtain ⟨n, _, hcalls⟩ := otg_enable_loop_calls enable 5 0
  unfold power_switch_otg
  cases value
  · simp
  · by_cases hv : p.info.voltage_vbus < OTG_VBUS_THRESHOLD
    · simp only [hv, if_true, hcalls]
      split <;> simp
    · simp [hv]

/-- C19. Handling `GetInfo` or `IsBatteryHealthy` leaves the whole controller
record unchanged; handling `SetLowBatteryWarningEnabled` changes only the
warnings-enabled flag, set to the given value; handling `SetOtgEnabled` changes
only the OTG-requested flag, set to the given value.  So each of the four leaves
ChargeState, the stored snapshot, the last published battery level, the
low-battery flag and the countdown unchanged; and none of them publishes an
event. -/
theorem command_frame (p : Power) (msg : PowerMessage) (enable : Nat → Bool) :
    (msg.type = PowerMessageType.GetInfo ∨ msg.type = PowerMessageType.IsBatteryHealthy →
      (power_message_callback p msg enable).power = p) ∧
    (msg.type = PowerMessageType.ShowBatteryLowWarning →
      (power_message_callback p msg enable).power =
        { p with show_battery_low_warning := msg.bool_param }) ∧
    (msg.type = PowerMessageType.SwitchOTG →
      (power_message_callback p msg enable).power =
        { p with is_otg_requested := msg.bool_param }) ∧
    (msg.type = PowerMessageType.GetInfo ∨ msg.type = PowerMessageType.IsBatteryHealthy ∨
        msg.type = PowerMessageType.ShowBatteryLowWarning ∨
        msg.type = PowerMessageType.SwitchOTG →
      (power_message_callback p msg enable).power.state = p.state ∧
      (power_message_callback p msg enable).power.info = p.info ∧
      (power_message_callback p msg enable).power.battery_level = p.battery_level ∧
      (power_message_callback p msg enable).power.battery_low = p.battery_low ∧
      (power_message_callback p msg enable).power.power_off_timeout = p.power_off_timeout ∧
      (power_message_callback p msg enable).power.event = p.event ∧
      ∀ e, Call.furi_pubsub_publish e ∉ (power_message_callback p msg enable).calls) := by
  have hu : ∀ e, Call.furi_pubsub_publish e ∉ message_unlock msg.lock := by
    intro e; cases msg.lock <;> simp [message_unlock]
  refine ⟨?_, ?_, ?_, ?_⟩
  · rintro (h | h)
    · rw [message_get_info p msg enable h]
    · rw [message_is_battery_healthy p msg enable h]
  · intro h
    rw [message_show_battery_low_warning p msg enable h]
  · intro h
    rw [message_switch_otg p msg enable h, switch_otg_power]
  · rintro (h | h | h | h)
    · rw [message_get_info p msg enable h]
      refine ⟨rfl, rfl, rfl, rfl, rfl, rfl, ?_⟩
      intro e hmem
      rcases List.mem_cons.1 hmem with h1 | h1
      · cases h1
      · exact hu e h1
    · rw [message_is_battery_healthy p msg enable h]
      refine ⟨rfl, rfl, rfl, rfl, rfl, rfl, ?_⟩
      intro e hmem
      rcases List.mem_cons.1 hmem with h1 | h1
      · cases h1
      · exact hu e h1
    · rw [message_show_battery_low_warning p msg enable h]
      exact ⟨rfl, rfl, rfl, rfl, rfl, rfl, hu⟩
    · rw [message_switch_otg p msg enable h]
      have hp := switch_otg_power p msg.bool_param enable
      refine ⟨by rw [hp], by rw [hp], by rw [hp], by rw [hp], by rw [hp], by rw [hp], ?_⟩
      intro e hmem
      rcases List.mem_append.1 hmem with h1 | h1
      · exact switch_otg_no_publish p msg.bool_param enable e h1
      · exact hu e h1

/-- Witness of C19: in the active flow with countdown 50, disabling the
warnings changes the warnings flag only, and a failed `SetOtgEnabled(true)`
changes the OTG-requested flag only. -/
theorem command_frame_witness :
    (power_message_callback active_power (show_warning_message false (some 2))
      enable_always_fails).power = { active_power with show_battery_low_warning := false } ∧
    (power_message_callback active_power (switch_otg_message true (some 2))
      enable_always_fails).power = { active_power with is_otg_requested := true } ∧
    (power_message_callback active_power (switch_otg_message true (some 2))
      enable_always_fails).power.power_off_timeout = 50 := by
  have h1 := (command_frame active_power (show_warning_message false (some 2))
    enable_always_fails).2.1 rfl
  have h2 := (command_frame active_power (switch_otg_message true (some 2))
    enable_always_fails).2.2.1 rfl
  have h3 := ((command_frame active_power (switch_otg_message true (some 2))
    enable_always_fails).2.2.2 (Or.inr (Or.inr (Or.inr rfl)))).2.2.2.2.1
  exact ⟨h1, h2, h3⟩

/-! ## Redraw request and the battery glyph -/

/-- The cross pattern draws dots only. -/
theorem cross_pattern_dots (n : Nat) :
    ∀ (x : Nat) (odd : Bool) (c : CanvasCall), c ∈ cross_pattern n x odd →
      ∃ a b, c = CanvasCall.canvas_draw_dot a b := by
  induction n with
  | zero => intro x odd c hc; simp [cross_pattern] at hc
  | succ n ih =>
    intro x odd c hc
    rcases List.mem_cons.1 hc with h | h
    · exact ⟨_, _, h⟩
    · exact ih _ _ c h

/-- The glyph has the lightning overlay exactly when the gauge is healthy and
the stored charge state is Charging. -/
theorem draw_lightning_iff (q : Power) :
    CanvasCall.canvas_draw_icon 8 (-1) Icon.I_Charging_lightning_9x10 ∈
        power_draw_battery_callback q ↔
      (q.info.gauge_is_ok = true ∧ q.state = PowerState.Charging) := by
  have hcross : ∀ n x odd, CanvasCall.canvas_draw_icon 8 (-1) Icon.I_Charging_lightning_9x10 ∉
      cross_pattern n x odd := by
    intro n x odd hmem
    obtain ⟨a, b, hab⟩ := cross_pattern_dots n x odd _ hmem
    cases hab
  unfold power_draw_battery_callback
  by_cases hg : q.info.gauge_is_ok = true
  · by_cases hs : q.state = PowerState.Charging
    · simp [hg, hs]
    · by_cases hl : q.info.voltage_battery_charge_limit < CHARGE_VOLTAGE_LIMIT_THRESHOLD
      · simp [hg, hs, hl, hcross]
      · simp [hg, hs, hl]
  · simp [hg]

/-- The redraw requests of a tick: one when `need_refresh` is true, else none. -/
theorem tick_redraw_count (p : Power) (i : TickInput) :
    (power_tick_callback p i).2.count Call.view_port_update =
      (if p.info.charge ≠ i.info.charge ∨ p.info.is_charging ≠ i.info.is_charging
        then 1 else 0) := by
  have h1 : (power_check_low_battery (power_update_info p i.info).2 i.response).2.count
      Call.view_port_update = 0 := by
    rw [List.count_eq_zero]
    intro hmem
    rw [← check_low_battery_calls_filter] at hmem
    exact absurd (List.mem_filter.1 hmem).2 (by decide)
  have h2 : ∀ q : Power, (power_check_charging_state q i.is_charging
      i.is_charging_done).2.count Call.view_port_update = 0 := by
    intro q
    rw [check_charging_state_eq]
    split <;> simp [charge_state_entry]
  have h3 : ∀ q : Power,
      (power_check_battery_level_change q).2.count Call.view_port_update = 0 := by
    intro q
    unfold power_check_battery_level_change
    split <;> simp
  have h4 : ∀ q : Power, (power_tick_otg q i.otg_fault).2.count Call.view_port_update = 0 := by
    intro q
    by_cases hc : (q.is_otg_requested = true ∧
        (q.info.is_otg_enabled = false ∧ q.info.voltage_vbus < OTG_VBUS_THRESHOLD)) <;>
      cases i.otg_fault <;> simp [power_tick_otg, hc]
  rw [tick_calls_eq]
  simp only [List.count_append, h1, h2, h3, h4]
  by_cases hc : p.info.charge = i.info.charge <;>
    by_cases hf : p.info.is_charging = i.info.is_charging <;>
    simp [power_update_info, hc, hf]

/-- C20. A tick requests a redraw (once) exactly when the charge or the
charging flag of its sample differs from the stored snapshot.  The glyph also
depends on the stored charge state: it has the lightning overlay exactly when
the gauge is healthy and the state is Charging.  There are two consecutive
ticks, both charging at the same charge 50 with a healthy gauge, the charger
reporting done on the second only, such that the state goes from Charging to
Charged, the glyph drawn changes (the lightning overlay goes away), and the
second tick requests no redraw. -/
theorem redraw_misses_charge_state :
    (∀ (p : Power) (i : TickInput),
      (power_tick_callback p i).2.count Call.view_port_update =
        (if p.info.charge ≠ i.info.charge ∨ p.info.is_charging ≠ i.info.is_charging
          then 1 else 0)) ∧
    (∀ q : Power,
      CanvasCall.canvas_draw_icon 8 (-1) Icon.I_Charging_lightning_9x10 ∈
        power_draw_battery_callback q ↔
      (q.info.gauge_is_ok = true ∧ q.state = PowerState.Charging)) ∧
    (∃ (p : Power) (i1 i2 : TickInput),
      i1.info.charge = i2.info.charge ∧ i1.info.charge < 100 ∧
      i1.info.is_charging = true ∧ i2.info.is_charging = true ∧
      i1.is_charging = true ∧ i2.is_charging = true ∧
      i1.is_charging_done = false ∧ i2.is_charging_done = true ∧
      i2.info = i1.info ∧
      (power_tick_callback p i1).1.state = PowerState.Charging ∧
      (power_tick_callback (power_tick_callback p i1).1 i2).1.state = PowerState.Charged ∧
      CanvasCall.canvas_draw_icon 8 (-1) Icon.I_Charging_lightning_9x10 ∈
        power_draw_battery_callback (power_tick_callback p i1).1 ∧
      CanvasCall.canvas_draw_icon 8 (-1) Icon.I_Charging_lightning_9x10 ∉
        power_draw_battery_callback (power_tick_callback (power_tick_callback p i1).1 i2).1 ∧
      power_draw_battery_callback (power_tick_callback p i1).1 ≠
        power_draw_battery_callback (power_tick_callback (power_tick_callback p i1).1 i2).1 ∧
      Call.view_port_update ∉ (power_tick_callback (power_tick_callback p i1).1 i2).2) := by
  refine ⟨tick_redraw_count, draw_lightning_iff, ?_⟩
  refine ⟨power_srv charger_info, charger_tick false, charger_tick true, ?_⟩
  have s1 : (power_tick_callback (power_srv charger_info) (charger_tick false)).1.state
      = PowerState.Charging := by
    rw [(tick_charging_state _ _).1]; decide
  have s2 : (power_tick_callback
      (power_tick_callback (power_srv charger_info) (charger_tick false)).1
      (charger_tick true)).1.state = PowerState.Charged := by
    rw [(tick_charging_state _ _).1]; decide
  have g1 : (power_tick_callback (power_srv charger_info)
      (charger_tick false)).1.info.gauge_is_ok = true := by
    rw [tick_info]; rfl
  have d1 : CanvasCall.canvas_draw_icon 8 (-1) Icon.I_Charging_lightning_9x10 ∈
      power_draw_battery_callback
        (power_tick_callback (power_srv charger_info) (charger_tick false)).1 :=
    (draw_lightning_iff _).2 ⟨g1, s1⟩
  have d2 : CanvasCall.canvas_draw_icon 8 (-1) Icon.I_Charging_lightning_9x10 ∉
      power_draw_battery_callback (power_tick_callback
        (power_tick_callback (power_srv charger_info) (charger_tick false)).1
        (charger_tick true)).1 := by
    intro hmem
    have := ((draw_lightning_iff _).1 hmem).2
    rw [s2] at this
    exact absurd this (by decide)
  have hr : Call.view_port_update ∉ (power_tick_callback
      (power_tick_callback (power_srv charger_info) (charger_tick false)).1
      (charger_tick true)).2 := by
    rw [← List.count_eq_zero, tick_redraw_count, tick_info]
    simp [charger_tick]
  refine ⟨rfl, by decide, rfl, rfl, rfl, rfl, rfl, rfl, rfl, s1, s2, d1, d2, ?_, hr⟩
  intro heq
  rw [heq] at d1
  exact d2 d1

end PowerSrv
